import Mathlib

/-!
SmartByte conversation core: a shallow embedding.

This file embeds, in Lean 4, the dialogue-state pipeline of the SmartByte
sales-dialogue engine: slot extraction
(`ConversationFlowManager._extract_conversation_info`), turn merging and
stage classification (`analyze_conversation_state`, `_determine_stage`,
`_generate_clarifying_question`), customer-archetype scoring
(`CustomerIdentifier`), catalog filtering with archetype spec gates
(`ProductMatcher`, `ProductRepository.filter_products`), upsell selection
(`UpsellSelector`) and the per-turn orchestration
(`RecommendationService.process_message`).

Conventions of the embedding:

* Python strings are Lean `String`s; almost all work happens on their
  `List Char` form.  `str.lower()` is modelled by `asciiLower` (it maps the
  ASCII range; Hebrew letters, like in Python, are unchanged).
* Python regular expressions are compiled by hand into backtracking matcher
  functions over `List Char` that follow `re.search` semantics: positions
  are tried left to right, alternatives left to right, greedy counters from
  high to low, lazy counters from low to high.
* Monetary amounts are rationals (`ℚ`).  Every arithmetic operation the
  source performs on them (`* 10`, `max`, `* 0.75`, `* 0.25`) is exact in
  binary floating point on the integral inputs that occur, so `ℚ` models the
  Python `float` values exactly on this code.
* Statements that can raise a Python exception are modelled in
  `Except String`; a `try/except` is the corresponding `match` recovering in
  place.  Pure keyword scans cannot fail and are plain functions.
-/

namespace SmartByte

/-! ## Character classes and basic text utilities -/

/-- Python `\s` on the characters occurring in this code base:
space, tab, newline, carriage return, vertical tab, form feed. -/
def isSpaceC (c : Char) : Bool :=
  c = ' ' || c = '\t' || c = '\n' || c = '\r' || c = '\x0b' || c = '\x0c'

/-- Python (Unicode) `\w` restricted to the alphabets this program handles:
ASCII letters and digits, the underscore, and the Hebrew letter block
(U+05D0 – U+05EA). -/
def isWordChar (c : Char) : Bool :=
  c.isAlpha || c.isDigit || c = '_' || (0x5d0 ≤ c.toNat && c.toNat ≤ 0x5ea)

/-- ASCII lowercase of one character; Hebrew letters and digits, exactly as
under Python `str.lower()`, are unchanged. -/
def lowerChar (c : Char) : Char :=
  if 'A' ≤ c && c ≤ 'Z' then Char.ofNat (c.toNat + 32) else c

/-- Lowercasing over a character list. -/
def lowerL (cs : List Char) : List Char := cs.map lowerChar

/-- Python `str.lower()` as a `String` operation. -/
def asciiLower (s : String) : String := ⟨lowerL s.data⟩

/-- Python substring containment `needle in hay` over character lists. -/
def sub (needle : List Char) : List Char → Bool
  | [] => needle.isEmpty
  | c :: cs => needle.isPrefixOf (c :: cs) || sub needle cs

/-- Python substring containment over `String`s. -/
def containsStr (hay needle : String) : Bool := sub needle.data hay.data

/-- Numeric value of a digit string (most significant digit first). -/
def digitsVal (cs : List Char) : Nat :=
  cs.foldl (fun a c => 10 * a + (c.toNat - 48)) 0

/-- Python `int`/`float` on a plain digit string: succeeds exactly on a
nonempty run of decimal digits. -/
def parseDigits (cs : List Char) : Option Nat :=
  if cs ≠ [] ∧ cs.all Char.isDigit then some (digitsVal cs) else none

/-- Python `int(...)` as a fallible (exception-raising) primitive. -/
def intE (cs : List Char) : Except String Nat :=
  match parseDigits cs with
  | some v => Except.ok v
  | none => Except.error "ValueError"

/-- First `some` produced by `f` along a list, in list order. -/
def firstSome (f : α → Option β) : List α → Option β
  | [] => none
  | a :: as => (f a) <|> firstSome f as

/-- Greedy repetition counters `[n, n-1, ..., 1]`. -/
def countsDesc (n : Nat) : List Nat := (List.range n).map (fun i => n - i)

/-- Greedy repetition counters including zero: `[m, m-1, ..., 0]`. -/
def countsDesc0 (m : Nat) : List Nat := (List.range (m + 1)).map (fun i => m - i)

/-- Semantics of `re.search`: the matcher `f` is tried at every start
position, leftmost first (the position at end of input included). -/
def searchPos (f : List Char → Option α) : List Char → Option α
  | [] => f []
  | c :: cs => f (c :: cs) <|> searchPos f cs

/-- Does the input contain three consecutive decimal digits?  This is
`re.search(r'\d{3,6}', ...) is not None`: a 3-to-6 digit counter finds a
match exactly when some 3-digit run exists. -/
def hasThreeDigitRun : List Char → Bool
  | a :: b :: c :: rest =>
      (a.isDigit && b.isDigit && c.isDigit) || hasThreeDigitRun (b :: c :: rest)
  | _ => false

/-! ## The number group of the budget regexes

`ConversationFlowManager._extract_conversation_info` builds its budget
patterns around one capture group
`(\d{4,6}|\d{1,3}(?:[,\.\s]\d{3})+|\d{2,3})` (source line 256).  `numAlt`
enumerates every way this group can match a prefix of the input as a pair
(captured characters, remaining input), in the order a backtracking engine
tries them: alternatives left to right, greedy counters high to low. -/

/-- Exactly `n` leading decimal digits, with the rest of the input. -/
def takeExactDigits (n : Nat) (cs : List Char) : Option (List Char × List Char) :=
  let ds := cs.take n
  if ds.length = n ∧ ds.all Char.isDigit then some (ds, cs.drop n) else none

/-- Characters of the separator class `[,\.\s]`. -/
def isSepC (c : Char) : Bool := c = ',' || c = '.' || isSpaceC c

/-- Maximal number of repetitions of `[,\.\s]\d{3}` at the head of the
input (each repetition consumes four characters). -/
def maxSepReps : List Char → Nat
  | c :: a :: b :: d :: rest =>
      if isSepC c && a.isDigit && b.isDigit && d.isDigit then 1 + maxSepReps rest
      else 0
  | _ => 0

/-- Matches of the middle alternative `\d{1,3}(?:[,\.\s]\d{3})+`:
the digit counter is greedy (3, 2, 1), then the group counter is greedy. -/
def branch2Alts (cs : List Char) : List (List Char × List Char) :=
  (countsDesc 3).flatMap (fun d =>
    match takeExactDigits d cs with
    | none => []
    | some (ds, rest) =>
        (countsDesc (maxSepReps rest)).map (fun k =>
          (ds ++ rest.take (4 * k), rest.drop (4 * k))))

/-- All matches of the budget number group, in backtracking order. -/
def numAlt (cs : List Char) : List (List Char × List Char) :=
  ([6, 5, 4].filterMap (fun n => takeExactDigits n cs))
    ++ branch2Alts cs
    ++ ([3, 2].filterMap (fun n => takeExactDigits n cs))

/-- The capture of the first way the number group matches here (used when
the group is the last element of a pattern, so any match of it completes
the whole pattern). -/
def firstNumCap (cs : List Char) : Option (List Char) :=
  (numAlt cs).head?.map Prod.fst

/-- Lazy `.*?` followed by the number group: try the group at the current
position; otherwise consume one non-newline character and continue. -/
def lazySkipToNum : List Char → Option (List Char)
  | [] => firstNumCap []
  | c :: rest =>
      match firstNumCap (c :: rest) with
      | some cap => some cap
      | none => if c = '\n' then none else lazySkipToNum rest

/-- Greedy `\s*` followed by the number group (whitespace counter backtracks
from maximal to zero). -/
def wsStarThenNum (cs : List Char) : Option (List Char) :=
  firstSome (fun k => firstNumCap (cs.drop k))
    (countsDesc0 ((cs.takeWhile isSpaceC).length))

/-- A literal, then lazy `.*?`, then the number group. -/
def litThenLazyNum (lit : List Char) (cs : List Char) : Option (List Char) :=
  if lit.isPrefixOf cs then lazySkipToNum (cs.drop lit.length) else none

/-- A literal, then `\s*`, then the number group. -/
def litThenWsNum (lit : List Char) (cs : List Char) : Option (List Char) :=
  if lit.isPrefixOf cs then wsStarThenNum (cs.drop lit.length) else none

/-- Greedy `\s*` followed by one of the literal alternatives given. -/
def wsThenAnyLit (tails : List (List Char)) (cs : List Char) : Bool :=
  (countsDesc0 ((cs.takeWhile isSpaceC).length)).any (fun k =>
    tails.any (fun t => t.isPrefixOf (cs.drop k)))

/-- The number group, then `\s*`, then one of the literal alternatives;
number alternatives backtrack in their regex order. -/
def numThenWsLit (tails : List (List Char)) (cs : List Char) : Option (List Char) :=
  firstSome (fun pr => if wsThenAnyLit tails pr.2 then some pr.1 else none) (numAlt cs)

/-- The pattern `סביב(?:ות|)s*\s*NUM` (source line 263; note the literal
`s*` in the source pattern, kept here): the optional suffix is tried
present first, then the literal-`s` counter and the whitespace counter
backtrack greedily. -/
def svivMatcher (cs : List Char) : Option (List Char) :=
  if "סביב".data.isPrefixOf cs then
    firstSome (fun pre =>
      let rest := cs.drop ("סביב".data.length)
      if pre.isPrefixOf rest then
        let r1 := rest.drop pre.length
        firstSome (fun k => wsStarThenNum (r1.drop k))
          (countsDesc0 ((r1.takeWhile (· = 's')).length))
      else none) ["ות".data, []]
  else none

/-- The pattern `מקס(?:ימום|)\s*NUM` (source line 264). -/
def maxMatcher (cs : List Char) : Option (List Char) :=
  if "מקס".data.isPrefixOf cs then
    firstSome (fun pre =>
      let rest := cs.drop ("מקס".data.length)
      if pre.isPrefixOf rest then wsStarThenNum (rest.drop pre.length) else none)
      ["ימום".data, []]
  else none

/-- Alternatives of the currency class
`(?:₪|שח|ש"ח|ש״ח|שקל|shekel|nis|ils)` (source line 252), in order. -/
def currencyLits : List (List Char) :=
  ["₪".data, "שח".data, "ש\"ח".data, "ש״ח".data, "שקל".data,
   "shekel".data, "nis".data, "ils".data]

/-- The eight budget patterns of
`_extract_conversation_info` (source lines 259–268), in order. -/
def budgetMatchers : List (List Char → Option (List Char)) :=
  [ litThenLazyNum "תקציב".data
  , litThenWsNum "עד".data
  , litThenWsNum "בערך".data
  , svivMatcher
  , maxMatcher
  , numThenWsLit currencyLits
  , numThenWsLit ["ומעלה".data]
  , numThenWsLit ["שקל".data] ]

/-- Strip `','`, `'.'` and `' '` from a raw capture, then parse — this is
`raw.replace(',', '').replace('.', '').replace(' ', '')` followed by
`float(...)` (source lines 274–276); a residual (non-space) whitespace
separator makes the parse fail, which the source catches. -/
def parseStrippedNum (raw : List Char) : Option Nat :=
  parseDigits (raw.filter (fun c => ¬ (c = ',' || c = '.' || c = ' ')))

/-- The anchored budget scan (source lines 270–290, up to the minimum-budget
adjustment): patterns are tried in order; a pattern whose match fails to
parse is skipped (the `except ValueError: pass` continues the loop). -/
def scanBudgetPatterns (cs : List Char) : Option Nat :=
  firstSome (fun f => (searchPos f cs).bind parseStrippedNum) budgetMatchers

/-! ## Bare-number fallback, minimum marker, technical-unit veto -/

/-- One step of `re.findall(r'\b(\d{2,6})\b', text)`: walk the text keeping
the previous character, emit each maximal digit run of length 2–6 whose two
neighbours (when present) are not word characters.  A maximal run longer
than six digits yields nothing: the quantifier cannot end at a word
boundary inside the run.  The fuel is the input length; every step consumes
at least one character. -/
def bareRunsAux : Nat → Option Char → List Char → List (List Char)
  | 0, _, _ => []
  | _ + 1, _, [] => []
  | fuel + 1, prev, c :: rest =>
      if c.isDigit then
        let run := c :: rest.takeWhile Char.isDigit
        let after := rest.drop (run.length - 1)
        let okBefore := match prev with | none => true | some p => ¬ isWordChar p
        let okAfter := match after.head? with | none => true | some a => ¬ isWordChar a
        let keep := okBefore && okAfter && decide (2 ≤ run.length) && decide (run.length ≤ 6)
        (if keep then [run] else []) ++ bareRunsAux fuel (some c) after
      else bareRunsAux fuel (some c) rest

/-- `re.findall(r'\b(\d{2,6})\b', text)` (source line 294). -/
def bareNumberRuns (cs : List Char) : List (List Char) :=
  bareRunsAux cs.length none cs

/-- The technical-unit veto of the fallback (source lines 298–299): any of
the unit tokens anywhere in the lowercased text blocks the whole bare-number
path. -/
def hasTechKeyword (cs : List Char) : Bool :=
  ["gb".data, "ram".data, "ראם".data, "גיגה".data, "tb".data, "ssd".data,
   "hdd".data].any (fun k => sub k (lowerL cs))

/-- The minimum-budget marker test (source line 281). -/
def hasMinMarker (cs : List Char) : Bool :=
  sub "ומעלה".data cs || sub "and up".data (lowerL cs) || sub "minimum".data (lowerL cs)

/-- The loop over fallback candidates (source lines 301–306): `int(num)` is
evaluated for each candidate in turn (a fallible primitive), and the first
value in `[50, 50000]` is taken. -/
def firstBudgetInRangeE : List (List Char) → Except String (Option Nat)
  | [] => Except.ok none
  | r :: rs =>
      match intE r with
      | Except.error e => Except.error e
      | Except.ok v =>
          if 50 ≤ v ∧ v ≤ 50000 then Except.ok (some v) else firstBudgetInRangeE rs

/-- The full budget step of `_extract_conversation_info` (source lines
252–306): the anchored scan first; on its success the minimum-marker
adjustment `max(value * 10, 10000)`; otherwise the bare-number fallback
guarded by the technical-unit veto. -/
def budgetStepE (cs : List Char) : Except String (Option ℚ × Bool) :=
  match scanBudgetPatterns cs with
  | some v =>
      if hasMinMarker cs then Except.ok (some ((max (v * 10) 10000 : Nat) : ℚ), true)
      else Except.ok (some ((v : Nat) : ℚ), false)
  | none =>
      let runs := bareNumberRuns cs
      if runs.isEmpty then Except.ok (none, false)
      else if hasTechKeyword cs then Except.ok (none, false)
      else
        match firstBudgetInRangeE runs with
        | Except.error e => Except.error e
        | Except.ok b => Except.ok (b.map (fun n => ((n : Nat) : ℚ)), false)

/-! ## The RAM requirement regex

`re.search(r'(\d+)\s*(?:gb|גיגה)\s*(?:ram|ראם)|(?:ram|ראם)\s*(\d+)\s*(?:gb|גיגה)', text)`
(source line 367); `int` is then applied to the matched digit group. -/

/-- Greedy `\s*`, one of the literal alternatives, then continuation `k`. -/
def wsLitThen (tails : List (List Char)) (k : List Char → Bool) (cs : List Char) : Bool :=
  (countsDesc0 ((cs.takeWhile isSpaceC).length)).any (fun j =>
    tails.any (fun t => t.isPrefixOf (cs.drop j) && k ((cs.drop j).drop t.length)))

def gbLits : List (List Char) := ["gb".data, "גיגה".data]

def ramLits : List (List Char) := ["ram".data, "ראם".data]

/-- First alternative `(\d+)\s*(?:gb|גיגה)\s*(?:ram|ראם)`: the digit counter
is greedy and backtracks; the capture is the digit prefix kept. -/
def ramBranchA (cs : List Char) : Option (List Char) :=
  let ds := cs.takeWhile Char.isDigit
  firstSome (fun k =>
    if wsLitThen gbLits (fun r2 => wsLitThen ramLits (fun _ => true) r2) (cs.drop k)
    then some (ds.take k) else none) (countsDesc ds.length)

/-- Second alternative `(?:ram|ראם)\s*(\d+)\s*(?:gb|גיגה)`. -/
def ramBranchB (cs : List Char) : Option (List Char) :=
  firstSome (fun t =>
    if t.isPrefixOf cs then
      let r1 := cs.drop t.length
      firstSome (fun j =>
        let r2 := r1.drop j
        let ds := r2.takeWhile Char.isDigit
        firstSome (fun k =>
          if wsLitThen gbLits (fun _ => true) (r2.drop k) then some (ds.take k) else none)
          (countsDesc ds.length))
        (countsDesc0 ((r1.takeWhile isSpaceC).length))
    else none) ramLits

/-- `re.search` over the RAM pattern: both alternatives at each position. -/
def ramSearch (cs : List Char) : Option (List Char) :=
  searchPos (fun s => ramBranchA s <|> ramBranchB s) cs

/-- The RAM spec step (source lines 367–371): search, then an uncaught
`int(...)` on the captured group. -/
def ramStepE (cs : List Char) : Except String (Option Nat) :=
  match ramSearch cs with
  | none => Except.ok none
  | some cap =>
      match intE cap with
      | Except.error e => Except.error e
      | Except.ok v => Except.ok (some v)

/-! ## The extracted slot record -/

/-- The dictionary built by `_extract_conversation_info` (source lines
224–237).  `spec_requirements` is flattened into its two possible keys;
`is_minimum_budget` and `requested_accessory` are keys the source adds
conditionally, absent is modelled as `false` / `none`. -/
structure ExtractedInfo where
  has_use_case : Bool := false
  use_case_keywords : List String := []
  has_budget : Bool := false
  budget_amount : Option ℚ := none
  has_product_type : Bool := false
  product_type : Option String := none
  has_brand_preference : Bool := false
  brand : Option String := none
  has_category : Bool := false
  category : Option String := none
  has_specific_specs : Bool := false
  min_ram : Option Nat := none
  needs_gpu : Bool := false
  is_minimum_budget : Bool := false
  requested_accessory : Option String := none
  deriving Repr, DecidableEq, Inhabited

/-- The use-case keyword buckets (source lines 240–245), in dict order. -/
def useCasePatterns : List (String × List String) :=
  [ ("student", ["student", "university", "college", "study", "homework",
       "סטודנט", "לימודים", "אוניברסיטה", "מכללה"])
  , ("gaming", ["gaming", "gamer", "games", "fps", "fortnite",
       "גיימר", "משחקים", "גיימינג", "חזק"])
  , ("work", ["work", "office", "business", "professional",
       "עבודה", "משרד", "עסק", "זום", "פגישות"])
  , ("development", ["developer", "programming", "coding", "engineer",
       "מפתח", "תכנות", "מהנדס", "פיתוח", "דוקר", "docker"]) ]

/-- GPU requirement keywords (source line 374). -/
def gpuNeedKeywords : List String :=
  ["rtx", "nvidia", "radeon", "כרטיס מסך", "גרפיקה", "gpu"]

/-- Everything in `_extract_conversation_info` other than the two fallible
steps: the pure keyword scans for use case, product type, category,
requested accessory, brand and the GPU flag (source lines 239–250 and
308–379). -/
def assembleInfo (cs : List Char) (budget : Option ℚ) (isMin : Bool)
    (ramReq : Option Nat) : ExtractedInfo :=
  let ucs := (useCasePatterns.filter
    (fun p => p.2.any (fun kw => sub kw.data cs))).map Prod.fst
  let productType : Option String :=
    if ["laptop", "notebook", "portable", "נייד", "לפטופ", "מחשב נייד"].any
        (fun k => sub k.data cs) then some "laptop"
    else if ["desktop", "tower", "pc", "נייח", "שולחני", "מחשב נייח", "מגדל"].any
        (fun k => sub k.data cs) then some "desktop"
    else none
  let hasComputerRequest :=
    ["computer", "computers", "pc", "מחשב", "מחשבים", "קומפיוטר"].any
      (fun k => sub k.data cs)
  let detectedAccessory : Option String :=
    if ["headset", "headphones", "אוזניות", "אזניות"].any (fun k => sub k.data cs) then
      some "headset"
    else if ["mouse", "עכבר"].any (fun k => sub k.data cs) then some "mouse"
    else if ["keyboard", "מקלדת"].any (fun k => sub k.data cs) then some "keyboard"
    else if ["monitor", "screen", "מסך", "צג"].any (fun k => sub k.data cs) then
      some "monitor"
    else if ["bag", "backpack", "תיק", "תרמיל"].any (fun k => sub k.data cs) then
      some "bag"
    else none
  let category : Option String :=
    if hasComputerRequest then some "computer"
    else detectedAccessory
  let requestedAccessory : Option String :=
    if hasComputerRequest then detectedAccessory else none
  let brand : Option String :=
    if ["lenovo", "לנובו"].any (fun k => sub k.data cs) then some "Lenovo"
    else if ["dell", "דל"].any (fun k => sub k.data cs) then some "Dell"
    else if ["hp", "אייץ פי", "הפ"].any (fun k => sub k.data cs) then some "HP"
    else if ["asus", "אסוס"].any (fun k => sub k.data cs) then some "ASUS"
    else none
  let needsGpu := gpuNeedKeywords.any (fun k => sub k.data cs)
  { has_use_case := ¬ ucs.isEmpty
  , use_case_keywords := ucs
  , has_budget := budget.isSome
  , budget_amount := budget
  , has_product_type := productType.isSome
  , product_type := productType
  , has_brand_preference := brand.isSome
  , brand := brand
  , has_category := category.isSome
  , category := category
  , has_specific_specs := ramReq.isSome || needsGpu
  , min_ram := ramReq
  , needs_gpu := needsGpu
  , is_minimum_budget := isMin
  , requested_accessory := requestedAccessory }

/-- `_extract_conversation_info` with the Python exception semantics made
explicit: the budget step (whose internal `float` failure is caught) and
the RAM step (whose `int` is uncaught) run in order; every other statement
of the source body is a total keyword scan. -/
def extractConversationInfoE (text : String) : Except String ExtractedInfo :=
  match budgetStepE text.data, ramStepE text.data with
  | Except.ok bm, Except.ok r => Except.ok (assembleInfo text.data bm.1 bm.2 r)
  | Except.error e, _ => Except.error e
  | Except.ok _, Except.error e => Except.error e

/-- The extraction as the total function the rest of the pipeline uses
(the error branch is proved unreachable below). -/
def extractConversationInfo (text : String) : ExtractedInfo :=
  match extractConversationInfoE text with
  | Except.ok i => i
  | Except.error _ => default

/-! ## Conversation flow: merging, missing slots, stage, questions -/

/-- One conversation turn, `{"role": ..., "content": ...}`. -/
structure Msg where
  role : String
  content : String
  deriving Repr, DecidableEq

/-- The stages of `ConversationStage` (source lines 19–32). -/
inductive ConversationStage where
  | greeting
  | understanding_needs
  | clarifying_budget
  | clarifying_preferences
  | ready_to_recommend
  | recommendation_given
  | off_topic
  deriving Repr, DecidableEq

/-- Source lines 102–104: copy the history budget into a current record
that lacks one. -/
def fillBudget (x hist : ExtractedInfo) : ExtractedInfo :=
  if x.has_budget = false ∧ hist.has_budget = true then
    { x with budget_amount := hist.budget_amount, has_budget := true }
  else x

/-- Source lines 106–108. -/
def fillUseCase (x hist : ExtractedInfo) : ExtractedInfo :=
  if x.has_use_case = false ∧ hist.has_use_case = true then
    { x with use_case_keywords := hist.use_case_keywords, has_use_case := true }
  else x

/-- Source lines 110–112. -/
def fillProductType (x hist : ExtractedInfo) : ExtractedInfo :=
  if x.has_product_type = false ∧ hist.has_product_type = true then
    { x with product_type := hist.product_type, has_product_type := true }
  else x

/-- Source lines 114–116. -/
def fillCategory (x hist : ExtractedInfo) : ExtractedInfo :=
  if x.has_category = false ∧ hist.has_category = true then
    { x with category := hist.category, has_category := true }
  else x

/-- Source lines 118–120. -/
def fillBrand (x hist : ExtractedInfo) : ExtractedInfo :=
  if x.has_brand_preference = false ∧ hist.has_brand_preference = true then
    { x with brand := hist.brand, has_brand_preference := true }
  else x

/-- The history-supplement step of `analyze_conversation_state` (source
lines 93–122): when the current message leaves budget, use case, product
type or category unset, values are copied in from the history extraction —
each one only into a still-unset field, never over a current-message value.
In the source this mutates `current_info` in place; the fill composition
mirrors the successive mutations. -/
def mergeInfo (cur hist : ExtractedInfo) : ExtractedInfo :=
  if cur.has_budget = false ∨ cur.has_use_case = false
      ∨ cur.has_product_type = false ∨ cur.has_category = false then
    fillBrand (fillCategory (fillProductType (fillUseCase
      (fillBudget cur hist) hist) hist) hist) hist
  else cur

/-- The product/purchase/spec/price/accessory keyword list of
`_is_product_related` (source lines 171–195). -/
def productKeywords : List String :=
  [ "computer", "laptop", "desktop", "pc", "notebook", "tower",
    "מחשב", "לפטופ", "נייד", "נייח",
    "buy", "purchase", "need", "looking for", "want", "recommend",
    "קנייה", "צריך", "מחפש", "רוצה", "המלצה",
    "ram", "cpu", "gpu", "processor", "graphics", "storage",
    "זיכרון", "מעבד", "כרטיס מסך",
    "gaming", "work", "study", "office", "development", "music", "entertainment",
    "גיימינג", "עבודה", "לימודים", "משרד", "פיתוח", "מוזיקה", "בידור",
    "price", "cost", "budget", "cheap", "expensive",
    "מחיר", "תקציב", "זול", "יקר",
    "mouse", "keyboard", "monitor", "headset", "bag", "headphones",
    "עכבר", "מקלדת", "מסך", "אוזניות", "תיק", "אזניות" ]

/-- The topic gate `_is_product_related` (source lines 157–212): keywords
are checked on the lowercased current message only; otherwise a 3-to-6
digit number anywhere accepts the message as in-topic.  The second
parameter (the full context) is received and, as in the source, unused. -/
def isProductRelated (current_message : String) (_full_context : List Char) : Bool :=
  let cur := lowerL current_message.data
  productKeywords.any (fun k => sub k.data cur)
    || hasThreeDigitRun current_message.data

/-- The accessory-only categories (source line 399). -/
def accessoryCategories : List String :=
  ["mouse", "keyboard", "headset", "bag", "monitor"]

/-- Is the resolved category a pure accessory kind? -/
def isAccessoryOnly (info : ExtractedInfo) : Bool :=
  accessoryCategories.any (fun c => info.category = some c)

/-- `_identify_missing_info` (source lines 381–422): accessory-only
requests need use case and budget; computer requests also need the product
type. -/
def identifyMissingInfo (info : ExtractedInfo) : List String :=
  if isAccessoryOnly info then
    (if info.has_use_case then [] else ["use_case"])
      ++ (if info.has_budget then [] else ["budget"])
  else
    (if info.has_use_case then [] else ["use_case"])
      ++ (if info.has_budget then [] else ["budget"])
      ++ (if info.has_product_type then [] else ["product_type"])

/-- `_determine_stage` (source lines 424–465). -/
def determineStage (info : ExtractedInfo) (history : List Msg) : ConversationStage :=
  if history.isEmpty then ConversationStage.greeting
  else if history.any (fun m =>
      (sub "recommend".data (lowerL m.content.data)
        || sub "ממליץ".data m.content.data
        || sub "המלצה".data m.content.data)
      && m.role = "assistant") then
    ConversationStage.recommendation_given
  else
    let missing := identifyMissingInfo info
    if missing.isEmpty then ConversationStage.ready_to_recommend
    else if missing.contains "use_case" then ConversationStage.understanding_needs
    else if missing.contains "budget" then ConversationStage.clarifying_budget
    else if missing.contains "product_type" then ConversationStage.clarifying_preferences
    else ConversationStage.understanding_needs

/-- `_get_accessory_name_hebrew` (source lines 536–545). -/
def accessoryNameHebrew (category : Option String) : String :=
  if category = some "headset" then "אוזניות"
  else if category = some "mouse" then "עכבר"
  else if category = some "keyboard" then "מקלדת"
  else if category = some "monitor" then "מסך"
  else if category = some "bag" then "תיק"
  else "מוצר"

/-- The use-case branch of `_generate_clarifying_question` (source lines
485–507).  The accessory chain has no final `else` in the source; a
category outside the five kinds (unreachable under `is_accessory_only`)
falls through, which `none` models. -/
def useCaseQuestionBranch (missing : List String) (info : ExtractedInfo) :
    Option String :=
  if missing.contains "use_case" then
    if isAccessoryOnly info then
      if info.category = some "headset" then
        some ("אשמח לעזור לך למצוא את האוזניות המושלמות! "
          ++ "למה בעיקר תשתמש באוזניות? לדוגמה: גיימינג, האזנה למוזיקה, שיחות עבודה, או שימוש כללי.")
      else if info.category = some "mouse" then
        some ("אשמח לעזור לך למצוא את העכבר המושלם! "
          ++ "למה בעיקר תשתמש בעכבר? לדוגמה: גיימינג, עבודה משרדית, עיצוב גרפי, או שימוש כללי.")
      else if info.category = some "keyboard" then
        some ("אשמח לעזור לך למצוא את המקלדת המושלמת! "
          ++ "למה בעיקר תשתמש במקלדת? לדוגמה: גיימינג, תכנות, כתיבה, או שימוש כללי.")
      else if info.category = some "monitor" then
        some ("אשמח לעזור לך למצוא את המסך המושלם! "
          ++ "למה בעיקר תשתמש במסך? לדוגמה: גיימינג, עיצוב גרפי, עבודה משרדית, או שימוש כללי.")
      else if info.category = some "bag" then
        some ("אשמח לעזור לך למצוא את התיק המושלם! "
          ++ "למה בעיקר תשתמש בתיק? לדוגמה: נסיעות, לימודים, עבודה, או שימוש יומיומי.")
      else none
    else
      some ("אשמח לעזור לך למצוא את המחשב המושלם! "
        ++ "כדי לתת לך את ההמלצה הטובה ביותר, תוכל לספר לי למה בעיקר תשתמש במחשב? "
        ++ "לדוגמה: לימודים, עבודה, גיימינג, או שימוש כללי בבית.")
  else none

/-- The product-type branch of `_generate_clarifying_question` (source
lines 509–521), specialised by the first resolved use-case bucket. -/
def productTypeQuestionBranch (missing : List String) (info : ExtractedInfo) :
    Option String :=
  if missing.contains "product_type" then
    some (match info.use_case_keywords.head? with
      | some uc =>
          if uc = "student" then
            "האם תעדיף מחשב נייד לניידות בין שיעורים, או מחשב נייח לחדר הלימודים שלך?"
          else if uc = "gaming" then
            "האם אתה מחפש מחשב נייד לגיימינג או מחשב נייח לגיימינג (יותר כוח תמורת הכסף)?"
          else "האם תעדיף מחשב נייד או מחשב נייח (נייח אבל חזק יותר)?"
      | none => "האם תרצה מחשב נייד או מחשב שולחני?")
  else none

/-- The budget branch of `_generate_clarifying_question` (source lines
523–528). -/
def budgetQuestionBranch (missing : List String) (info : ExtractedInfo) :
    Option String :=
  if missing.contains "budget" then
    some (if isAccessoryOnly info then
      "מה טווח התקציב שלך ל" ++ accessoryNameHebrew info.category
        ++ "? זה יעזור לי להראות לך את האפשרויות הטובות ביותר."
    else
      "מה טווח התקציב שלך לרכישה? זה יעזור לי להראות לך את האפשרויות הטובות ביותר הזמינות.")
  else none

/-- `_generate_clarifying_question` (source lines 467–534): the branches
return in the order they appear in the source — use case, then product
type, then budget, then the general fallback. -/
def generateClarifyingQuestion (missing : List String) (info : ExtractedInfo) : String :=
  match useCaseQuestionBranch missing info with
  | some q => q
  | none =>
      match productTypeQuestionBranch missing info with
      | some q => q
      | none =>
          match budgetQuestionBranch missing info with
          | some q => q
          | none =>
              if isAccessoryOnly info then
                "האם יש משהו ספציפי שאתה מחפש ב" ++ accessoryNameHebrew info.category
                  ++ "? תכונות או דרישות מיוחדות?"
              else "האם יש משהו ספציפי שאתה מחפש במחשב? תכונות או דרישות מיוחדות?"

/-- The result dictionary of `analyze_conversation_state` (source lines
63–72 and 146–155).  `extracted_info` is a key only the product-inquiry
branch adds. -/
structure AnalysisResult where
  stage : ConversationStage
  missing_info : List String
  has_enough_info : Bool
  suggested_question : Option String
  is_product_inquiry : Bool
  needs_clarification : Bool
  extracted_info : Option ExtractedInfo
  redirect_needed : Bool
  deriving Repr, DecidableEq

/-- Contents of the user turns of a history. -/
def userContents (history : List Msg) : List String :=
  (history.filter (fun m => m.role = "user")).map Msg.content

/-- Space-join of a list of texts. -/
def joinSpace : List (List Char) → List Char
  | [] => []
  | [x] => x
  | x :: xs => x ++ ' ' :: joinSpace xs

/-- `" ".join(user messages + [current]).lower()` (source lines 74–77). -/
def allUserText (current : String) (history : List Msg) : List Char :=
  lowerL (joinSpace ((userContents history).map String.data ++ [current.data]))

/-- `analyze_conversation_state` (source lines 47–155).  The source
extracts from the history lazily, only when some field is missing from the
current message; `mergeInfo`'s guard reproduces exactly that condition, so
hoisting the history extraction is extensionally faithful. -/
def analyzeConversationState (current_message : String) (history : List Msg) :
    AnalysisResult :=
  let all := allUserText current_message history
  if ¬ isProductRelated current_message all then
    { stage := ConversationStage.off_topic
    , missing_info := []
    , has_enough_info := false
    , suggested_question := none
    , is_product_inquiry := false
    , needs_clarification := false
    , extracted_info := none
    , redirect_needed := true }
  else
    let cur := extractConversationInfo (asciiLower current_message)
    let hist := extractConversationInfo ⟨all⟩
    let merged := mergeInfo cur hist
    let missing := identifyMissingInfo merged
    let stage := determineStage merged history
    let q := if missing.isEmpty then none
      else some (generateClarifyingQuestion missing merged)
    { stage := stage
    , missing_info := missing
    , has_enough_info := missing.isEmpty
    , suggested_question := q
    , is_product_inquiry := true
    , needs_clarification := ¬ missing.isEmpty
    , extracted_info := some merged
    , redirect_needed := false }

/-! ## Customer identification (`CustomerIdentifier`) -/

/-- `CustomerType` (customer_identifier.py lines 28–35). -/
inductive CustomerType where
  | Student
  | Engineer
  | Gamer
  | Business
  | HomeUser
  | Other
  deriving Repr, DecidableEq

/-- The `.value` strings of the enum. -/
def customerTypeStr : CustomerType → String
  | CustomerType.Student => "Student"
  | CustomerType.Engineer => "Engineer"
  | CustomerType.Gamer => "Gamer"
  | CustomerType.Business => "Business"
  | CustomerType.HomeUser => "Home User"
  | CustomerType.Other => "Other"

/-- Declaration order of the enum; this is the iteration order of the
scores dictionary, which decides ties in `max(scores, key=scores.get)`. -/
def customerTypeOrder : List CustomerType :=
  [CustomerType.Student, CustomerType.Engineer, CustomerType.Gamer,
   CustomerType.Business, CustomerType.HomeUser, CustomerType.Other]

/-- Strong keywords of `USE_CASE_KEYWORDS` (3 points each, lines 44–76);
`Other` has no entry. -/
def strongKeywords : CustomerType → List String
  | CustomerType.Student =>
      ["student", "university", "college", "studies", "homework", "assignment",
       "סטודנט", "אוניברסיטה", "לימודים", "שיעורי בית"]
  | CustomerType.Engineer =>
      ["engineer", "developer", "programmer", "architect", "designer",
       "מהנדס", "מפתח", "תכנתן", "אדריכל"]
  | CustomerType.Gamer =>
      ["gaming", "gamer", "games", "fortnite", "valorant", "csgo", "warzone",
       "גיימר", "משחקים", "גיימינג"]
  | CustomerType.Business =>
      ["business", "office", "work", "company", "employee",
       "עסק", "משרד", "עבודה", "חברה"]
  | CustomerType.HomeUser =>
      ["home", "family", "personal use", "browsing", "netflix",
       "בית", "משפחה", "שימוש אישי"]
  | CustomerType.Other => []

/-- Medium keywords of `USE_CASE_KEYWORDS` (1 point each). -/
def mediumKeywords : CustomerType → List String
  | CustomerType.Student =>
      ["school", "class", "lecture", "exam", "notes", "research",
       "בית ספר", "הרצאה", "מבחן"]
  | CustomerType.Engineer =>
      ["coding", "programming", "development", "software", "cad", "autocad",
       "3d modeling", "rendering", "simulation", "compile",
       "תכנות", "פיתוח", "רינדור"]
  | CustomerType.Gamer =>
      ["fps", "streaming", "twitch", "discord", "graphics", "rtx",
       "frame rate", "hz", "rgb"]
  | CustomerType.Business =>
      ["excel", "powerpoint", "word", "email", "meetings", "zoom",
       "אקסל", "וורד", "פגישות"]
  | CustomerType.HomeUser =>
      ["internet", "youtube", "email", "photos", "videos",
       "אינטרנט", "תמונות", "סרטונים"]
  | CustomerType.Other => []

/-- `_score_customer_types` for one archetype (lines 198–218): each strong
keyword found in the text adds 3, each medium keyword adds 1. -/
def scoreCustomerType (text : List Char) (ct : CustomerType) : Nat :=
  (strongKeywords ct).foldl
      (fun s k => if sub (lowerL k.data) text then s + 3 else s) 0
    + (mediumKeywords ct).foldl
      (fun s k => if sub (lowerL k.data) text then s + 1 else s) 0

/-- `max(scores, key=scores.get)`: the first archetype (in dictionary
iteration order) attaining the maximal score. -/
def bestCustomerType (text : List Char) : CustomerType × Nat :=
  match customerTypeOrder with
  | [] => (CustomerType.Other, 0)
  | c0 :: rest =>
      rest.foldl (fun best ct =>
        let s := scoreCustomerType text ct
        if best.2 < s then (ct, s) else best)
        (c0, scoreCustomerType text c0)

/-- The GPU-need values of the requirement profiles (`False`, `True` or the
string `'depends'`). -/
inductive GpuNeed where
  | no
  | yes
  | depends
  deriving Repr, DecidableEq

/-- One requirement profile of `REQUIREMENTS_MAP` (lines 79–146). -/
structure RequirementProfile where
  cpu_priority : String
  ram_min : Nat
  ram_recommended : Nat
  gpu_needed : GpuNeed
  storage_min : Nat
  storage_recommended : Nat
  portability : String
  budget_sensitive : Bool
  description : String
  deriving Repr, DecidableEq

/-- `REQUIREMENTS_MAP`. -/
def requirementsMap : CustomerType → RequirementProfile
  | CustomerType.Student =>
      { cpu_priority := "medium", ram_min := 8, ram_recommended := 16
      , gpu_needed := GpuNeed.no, storage_min := 256, storage_recommended := 512
      , portability := "important", budget_sensitive := true
      , description := "Students need portable, affordable laptops for office work, research, and note-taking" }
  | CustomerType.Engineer =>
      { cpu_priority := "high", ram_min := 16, ram_recommended := 32
      , gpu_needed := GpuNeed.depends, storage_min := 512, storage_recommended := 1024
      , portability := "medium", budget_sensitive := false
      , description := "Engineers need powerful CPUs and RAM for development, compilation, and professional tools" }
  | CustomerType.Gamer =>
      { cpu_priority := "high", ram_min := 16, ram_recommended := 32
      , gpu_needed := GpuNeed.yes, storage_min := 512, storage_recommended := 1024
      , portability := "low", budget_sensitive := false
      , description := "Gamers need dedicated GPUs, good cooling, and high-performance components" }
  | CustomerType.Business =>
      { cpu_priority := "medium", ram_min := 8, ram_recommended := 16
      , gpu_needed := GpuNeed.no, storage_min := 256, storage_recommended := 512
      , portability := "medium", budget_sensitive := true
      , description := "Business users need reliable, secure computers for office applications and communication" }
  | CustomerType.HomeUser =>
      { cpu_priority := "low", ram_min := 8, ram_recommended := 8
      , gpu_needed := GpuNeed.no, storage_min := 256, storage_recommended := 256
      , portability := "medium", budget_sensitive := true
      , description := "Home users need basic, affordable computers for browsing, email, and multimedia" }
  | CustomerType.Other =>
      { cpu_priority := "medium", ram_min := 8, ram_recommended := 16
      , gpu_needed := GpuNeed.no, storage_min := 256, storage_recommended := 512
      , portability := "medium", budget_sensitive := true
      , description := "General-purpose computing with balanced specifications" }

/-- Does any character of the text satisfy `isdigit`? -/
def anyDigit (cs : List Char) : Bool := cs.any Char.isDigit

/-- `_get_clarifying_question` (lines 220–252), asked when the score is
below the confidence floor. -/
def identifierClarifyingQuestion (_message : String) (full_context : List Char) :
    Option String :=
  let hasUseCase := ["student", "gaming", "work", "engineer", "business", "home",
    "סטודנט", "גיימינג", "עבודה", "מהנדס", "עסק", "בית"].any
    (fun w => sub w.data full_context)
  let hasProductType := ["laptop", "desktop", "notebook", "pc", "tower",
    "נייד", "נייח", "לפטופ"].any (fun w => sub w.data full_context)
  let hasBudget := (["budget", "price", "cost", "shekel", "nis", "ils",
    "תקציב", "מחיר", "שקל"].any (fun w => sub w.data full_context))
    || anyDigit full_context
  if ¬ hasUseCase then
    some ("מעולה! אשמח לעזור לך למצוא את המחשב המושלם. "
      ++ "למה בעיקר תשתמש במחשב? לדוגמה: לימודים, עבודה, גיימינג, או שימוש כללי בבית?")
  else if ¬ hasProductType then
    some "תודה על המידע! האם תעדיף מחשב נייד (נייד) או מחשב נייח (יותר כוח תמורת המחיר)?"
  else if ¬ hasBudget then
    some ("מעולה! מה טווח התקציב שלך? זה יעזור לי להראות לך את האפשרויות הטובות ביותר הזמינות.")
  else none

/-- `_check_missing_info` (lines 254–271), asked when the archetype is
identified. -/
def identifierCheckMissingInfo (text : List Char) : Option String :=
  let hasBudget := (["budget", "price", "cost", "תקציב", "מחיר"].any
    (fun w => sub w.data text)) || anyDigit text
  let hasProductType := ["laptop", "desktop", "notebook", "pc", "נייד", "נייח"].any
    (fun w => sub w.data text)
  if ¬ hasProductType then some "האם תעדיף מחשב נייד או מחשב נייח?"
  else if ¬ hasBudget then some "מה טווח התקציב שלך לרכישה?"
  else none

/-- `identify_from_conversation` (lines 148–196): score over the space-join
of all user text lowered, confidence floor 2, ties broken by declaration
order. -/
def identifyFromConversation (current_message : String)
    (conversation_history : List String) :
    CustomerType × RequirementProfile × Option String :=
  let allText := lowerL (joinSpace
    ((conversation_history ++ [current_message]).map String.data))
  let best := bestCustomerType allText
  if best.2 < 2 then
    (CustomerType.Other, requirementsMap CustomerType.Other,
      identifierClarifyingQuestion current_message allText)
  else
    (best.1, requirementsMap best.1, identifierCheckMissingInfo allText)

/-! ## Catalog model and `ProductRepository.filter_products` -/

/-- The keys of the product `specs` JSON that this pipeline reads
(`ram_gb`, `gpu`, `cpu`, `storage_gb`); each is optional, read with
`dict.get` and a default. -/
structure Specs where
  ram_gb : Option Nat := none
  gpu : Option String := none
  cpu : Option String := none
  storage_gb : Option Nat := none
  deriving Repr, DecidableEq

/-- A catalog row (models/product.py).  Prices are rationals (see the file
header); `specs := none` models both a SQL `NULL` and an empty dict — the
two cases the source treats alike via truthiness. -/
structure Product where
  sku : String
  name : String
  brand : String
  product_type : String
  category : String
  price : ℚ
  stock : Nat
  specs : Option Specs := none
  deriving Repr, DecidableEq

/-- The `is_computer` property (product.py lines 113–116). -/
def isComputerT (p : Product) : Bool :=
  p.product_type = "laptop" || p.product_type = "desktop"

/-- The `display_name` property (product.py lines 123–129). -/
def displayName (p : Product) : String := p.brand ++ " " ++ p.name

/-- `specs.get('ram_gb', 0)` on a product. -/
def ramGbOf (p : Product) : Nat :=
  match p.specs with
  | some s => s.ram_gb.getD 0
  | none => 0

/-- `specs.get('gpu', '').lower()` on a product. -/
def gpuOf (p : Product) : String :=
  asciiLower (match p.specs with
    | some s => s.gpu.getD ""
    | none => "")

/-- `specs.get('storage_gb', 0)` on a product. -/
def storageGbOf (p : Product) : Nat :=
  match p.specs with
  | some s => s.storage_gb.getD 0
  | none => 0

/-- Python truthiness of an optional string argument. -/
def strTruthy : Option String → Bool
  | some s => ¬ s.isEmpty
  | none => false

/-- Python truthiness of an optional numeric argument. -/
def ratTruthy : Option ℚ → Bool
  | some v => v ≠ 0
  | none => false

/-- Python truthiness of an optional integer argument. -/
def natTruthy : Option Nat → Bool
  | some v => v ≠ 0
  | none => false

/-- Stable insertion of a product into a price-sorted list: it goes in
front of the first strictly-later element whose price is not smaller, so
elements of equal price keep their original order. -/
def insertByPrice (x : Product) : List Product → List Product
  | [] => [x]
  | y :: ys => if x.price ≤ y.price then x :: y :: ys else y :: insertByPrice x ys

/-- The stable price-ascending sort of `results.sort(key=lambda p: p.price)`
(repositories.py line 136); Python's sort is stable, and a stable sort by
one key is unique, so stable insertion sort is extensionally the same. -/
def sortByPrice : List Product → List Product
  | [] => []
  | x :: xs => insertByPrice x (sortByPrice xs)

/-- `ProductRepository.filter_products` (repositories.py lines 52–138):
truthy filters for product type, category, brand and the price bounds; the
stock filter always; then the in-process RAM/storage spec filter (which
keeps only products with a truthy `specs`); finally a stable sort by
price, cheapest first. -/
def filterProducts (catalog : List Product)
    (product_type : Option String := none) (category : Option String := none)
    (brand : Option String := none) (max_price : Option ℚ := none)
    (min_price : Option ℚ := none) (min_stock : Nat := 1)
    (min_ram : Option Nat := none) (min_storage : Option Nat := none) :
    List Product :=
  let q := catalog
  let q := if strTruthy product_type then
      q.filter (fun p => p.product_type = product_type.getD "") else q
  let q := if strTruthy category then
      q.filter (fun p => p.category = category.getD "") else q
  let q := if strTruthy brand then
      q.filter (fun p => p.brand = brand.getD "") else q
  let q := if ratTruthy max_price then
      q.filter (fun p => p.price ≤ max_price.getD 0) else q
  let q := if ratTruthy min_price then
      q.filter (fun p => min_price.getD 0 ≤ p.price) else q
  let q := q.filter (fun p => min_stock ≤ p.stock)
  let q := if natTruthy min_ram || natTruthy min_storage then
      q.filter (fun p => p.specs.isSome
        && ¬ (natTruthy min_ram && decide (ramGbOf p < min_ram.getD 0))
        && ¬ (natTruthy min_storage && decide (storageGbOf p < min_storage.getD 0)))
    else q
  sortByPrice q

/-! ## `ProductMatcher` -/

/-- The comma-grouped number `\d{1,3}(?:,\d{3})+` of
`ProductMatcher._extract_budget`, all matches in backtracking order. -/
def maxCommaReps : List Char → Nat
  | c :: a :: b :: d :: rest =>
      if c = ',' && a.isDigit && b.isDigit && d.isDigit then 1 + maxCommaReps rest
      else 0
  | _ => 0

/-- Matches of `\d{1,3}(?:,\d{3})+` as (capture, rest) pairs. -/
def commaNumAlts (cs : List Char) : List (List Char × List Char) :=
  (countsDesc 3).flatMap (fun d =>
    match takeExactDigits d cs with
    | none => []
    | some (ds, rest) =>
        (countsDesc (maxCommaReps rest)).map (fun k =>
          (ds ++ rest.take (4 * k), rest.drop (4 * k))))

/-- Matches of `\d+` (greedy, backtracking) as (capture, rest) pairs. -/
def plainNumAlts (cs : List Char) : List (List Char × List Char) :=
  let ds := cs.takeWhile Char.isDigit
  (countsDesc ds.length).map (fun k => (ds.take k, cs.drop k))

/-- Lazy `.*?` followed by a number grammar `g`. -/
def lazySkipToG (g : List Char → List (List Char × List Char)) :
    List Char → Option (List Char)
  | [] => (g []).head?.map Prod.fst
  | c :: rest =>
      match (g (c :: rest)).head?.map Prod.fst with
      | some cap => some cap
      | none => if c = '\n' then none else lazySkipToG g rest

/-- A literal anchor, lazy `.*?`, then the number grammar `g`. -/
def litLazyG (lit : List Char) (g : List Char → List (List Char × List Char))
    (cs : List Char) : Option (List Char) :=
  if lit.isPrefixOf cs then lazySkipToG g (cs.drop lit.length) else none

/-- The number grammar `g`, `\s*`, then one of the literal tails. -/
def gWsLit (g : List Char → List (List Char × List Char))
    (tails : List (List Char)) (cs : List Char) : Option (List Char) :=
  firstSome (fun pr => if wsThenAnyLit tails pr.2 then some pr.1 else none) (g cs)

/-- The 24 patterns of `ProductMatcher._extract_budget` (product_matcher.py
lines 130–158), in source order: for each anchor a comma-grouped variant
then a plain variant, and the three currency-tail pairs. -/
def matcherBudgetPatterns : List (List Char → Option (List Char)) :=
  [ litLazyG "budget".data commaNumAlts
  , litLazyG "budget".data plainNumAlts
  , litLazyG "up to".data commaNumAlts
  , litLazyG "up to".data plainNumAlts
  , litLazyG "around".data commaNumAlts
  , litLazyG "around".data plainNumAlts
  , litLazyG "max".data commaNumAlts
  , litLazyG "max".data plainNumAlts
  , gWsLit commaNumAlts ["shekel".data, "nis".data, "ils".data]
  , gWsLit plainNumAlts ["shekel".data, "nis".data, "ils".data]
  , litLazyG "תקציב".data commaNumAlts
  , litLazyG "תקציב".data plainNumAlts
  , litLazyG "עד".data commaNumAlts
  , litLazyG "עד".data plainNumAlts
  , litLazyG "בסביבות".data commaNumAlts
  , litLazyG "בסביבות".data plainNumAlts
  , litLazyG "מקסימום".data commaNumAlts
  , litLazyG "מקסימום".data plainNumAlts
  , litLazyG "מקסימלי".data commaNumAlts
  , litLazyG "מקסימלי".data plainNumAlts
  , gWsLit commaNumAlts ["שקל".data, "ש\"ח".data, "שח".data]
  , gWsLit plainNumAlts ["שקל".data, "ש\"ח".data, "שח".data]
  , gWsLit commaNumAlts ["₪".data]
  , gWsLit plainNumAlts ["₪".data] ]

/-- `ProductMatcher._extract_budget` (lines 110–170): first pattern with a
match wins; commas are stripped and the capture parsed (always a digit
string after the strip, so `float` cannot fail here). -/
def matcherExtractBudget (message : String) : Option ℚ :=
  (firstSome (fun f => searchPos f (lowerL message.data)) matcherBudgetPatterns).map
    (fun raw => ((digitsVal (raw.filter (fun c => c ≠ ',')) : Nat) : ℚ))

/-- `ProductMatcher._extract_product_type` (lines 172–202). -/
def matcherExtractProductType (message : String) : Option String :=
  let m := lowerL message.data
  if ["laptop", "notebook", "portable",
      "נייד", "לפטופ", "מחשב נייד", "מחברת", "ניידת"].any (fun k => sub k.data m) then
    some "laptop"
  else if ["desktop", "tower", "pc",
      "שולחני", "מחשב שולחני", "נייח", "מגדל", "דסקטופ"].any (fun k => sub k.data m) then
    some "desktop"
  else none

/-- The gaming keywords of `_filter_by_specs` (lines 252–255). -/
def gamingKeywords : List String :=
  ["gaming", "gamer", "game", "games", "גיימינג", "גיימר", "משחקים", "משחק"]

/-- Integrated-graphics exclusion markers (line 285). -/
def hasIntegratedMarker (gpu : String) : Bool :=
  ["vega", "uhd", "iris"].any (fun w => sub w.data gpu.data)

/-- Discrete-GPU markers (line 288). -/
def hasDiscreteMarker (gpu : String) : Bool :=
  sub "rtx".data gpu.data || sub "radeon".data gpu.data
    || sub "nvidia".data gpu.data || sub "geforce".data gpu.data

/-- Does one product pass the per-product body of `_filter_by_specs`
(lines 259–296)?  Products without truthy specs or outside the computers
are skipped; Engineers need 16 GB of RAM; the Gamer branch (also entered on
a gaming mention) needs a discrete-GPU marker and no integrated marker. -/
def specPass (customer_type : String) (gaming : Bool) (p : Product) : Bool :=
  if ¬ p.specs.isSome || ¬ isComputerT p then false
  else if customer_type = "Engineer" then decide (16 ≤ ramGbOf p)
  else if customer_type = "Gamer" || gaming then
    if hasIntegratedMarker (gpuOf p) then false
    else hasDiscreteMarker (gpuOf p)
  else true

/-- `ProductMatcher._filter_by_specs` (lines 233–306): order-preserving
filter; an empty outcome is returned as the empty list. -/
def filterBySpecs (products : List Product) (customer_type message : String) :
    List Product :=
  let gaming := gamingKeywords.any (fun k => sub k.data (lowerL message.data))
  let filtered := products.filter (specPass customer_type gaming)
  if filtered.isEmpty then [] else filtered

/-- The query part of `ProductMatcher.find_matching_products` (lines
64–96): budget and product type defaulted from the message, the customer
filters of `_get_customer_filters` (lines 204–231: stock, Lenovo/Dell
brand, computer-keyword category), the category override from history, and
the repository query. -/
def matcherBaseQuery (catalog : List Product) (_customer_type message : String)
    (max_budget0 : Option ℚ) (product_type0 category0 : Option String) :
    List Product :=
  let max_budget := match max_budget0 with
    | some b => some b
    | none => matcherExtractBudget message
  let product_type := match product_type0 with
    | some t => some t
    | none => matcherExtractProductType message
  let m := lowerL message.data
  let brand : Option String :=
    if sub "lenovo".data m then some "Lenovo"
    else if sub "dell".data m then some "Dell"
    else none
  let baseCategory : Option String :=
    if ["computer", "computers", "pc", "מחשב", "מחשבים", "קומפיוטר"].any
        (fun k => sub k.data m) then some "computer"
    else none
  let category := if strTruthy category0 then category0 else baseCategory
  filterProducts catalog product_type category brand max_budget none 1 none none

/-- `ProductMatcher.find_matching_products` (lines 31–108): the base query,
then — exactly for the Engineer and Gamer archetypes — the secondary spec
gate, then truncation to `limit`. -/
def findMatchingProducts (catalog : List Product) (customer_type message : String)
    (max_budget : Option ℚ := none) (product_type : Option String := none)
    (category : Option String := none) (limit : Nat := 10) : List Product :=
  let products := matcherBaseQuery catalog customer_type message
    max_budget product_type category
  let products :=
    if customer_type = "Engineer" ∨ customer_type = "Gamer" then
      filterBySpecs products customer_type message
    else products
  products.take limit

/-! ## `UpsellSelector` -/

/-- The accessory keyword map of `_detect_explicit_accessory_request`
(upsell_selector.py lines 126–132), in dict order. -/
def upsellAccessoryKeywords : List (String × List String) :=
  [ ("headset", ["headset", "headphones", "earphones", "אוזניות", "אזניות"])
  , ("mouse", ["mouse", "עכבר", "עכברים"])
  , ("keyboard", ["keyboard", "מקלדת"])
  , ("monitor", ["monitor", "screen", "display", "מסך", "צג"])
  , ("bag", ["bag", "backpack", "תיק", "תרמיל"]) ]

/-- `_detect_explicit_accessory_request` (lines 115–144): first user turn,
in order, whose lowercased content matches a category keyword wins. -/
def detectExplicitAccessoryRequest (history : List Msg) : Option String :=
  firstSome (fun m =>
    if m.role = "user" then
      firstSome (fun p =>
        if p.2.any (fun k => sub k.data (lowerL m.content.data)) then some p.1
        else none) upsellAccessoryKeywords
    else none) history

/-- `_get_preferred_categories` (lines 146–172). -/
def getPreferredCategories (main : Product) (customer_type : String) : List String :=
  let cats : List String :=
    if main.product_type = "laptop" then ["mouse", "bag", "headset"]
    else if main.product_type = "desktop" then ["keyboard", "mouse", "headset"]
    else []
  if customer_type = "Gamer" then "mouse" :: "headset" :: cats
  else if customer_type = "Student" then "mouse" :: "bag" :: cats
  else cats

/-- `UpsellSelector.select_upsell` (lines 29–113): the four-tier cascade —
explicitly requested accessory, accessory mentioned in history, preferred
categories for the main product and archetype, then any accessory —
each tier querying in-stock accessories under the budget, cheapest
first. -/
def selectUpsell (catalog : List Product) (main : Product) (customer_type : String)
    (conversation_history : List Msg) (max_upsell_price : ℚ)
    (requested_accessory : Option String) : Option Product :=
  let tier1 : Option Product :=
    if strTruthy requested_accessory then
      (filterProducts catalog (some "accessory") requested_accessory none
        (some max_upsell_price) none 1 none none).head?
    else none
  match tier1 with
  | some p => some p
  | none =>
    let tier2 : Option Product :=
      if ¬ conversation_history.isEmpty then
        match detectExplicitAccessoryRequest conversation_history with
        | some c =>
            (filterProducts catalog (some "accessory") (some c) none
              (some max_upsell_price) none 1 none none).head?
        | none => none
      else none
    match tier2 with
    | some p => some p
    | none =>
      let tier3 := firstSome (fun c =>
        (filterProducts catalog (some "accessory") (some c) none
          (some max_upsell_price) none 1 none none).head?)
        (getPreferredCategories main customer_type)
      match tier3 with
      | some p => some p
      | none =>
          (filterProducts catalog (some "accessory") none none
            (some max_upsell_price) none 1 none none).head?

/-! ## Text generation, guardrails, fallbacks (`RecommendationService`) -/

/-- Rendering of a numeric value into prompt/response text.  (Python
renders a float as e.g. `2500.0`; this rendering difference affects only
text the claims never inspect.) -/
def ratStr (v : ℚ) : String := toString v

/-- `_build_strict_product_context` (recommendation_service.py lines
480–490), one numbered line per product with SKU, display name, price,
stock and specs. -/
def buildStrictProductContext (products : List Product) : String :=
  String.intercalate "\n"
    ((products.zip (List.range products.length)).map (fun pr =>
      toString (pr.2 + 1) ++ ". " ++ pr.1.sku ++ " - " ++ displayName pr.1 ++ "\n"
        ++ "   Price: " ++ ratStr pr.1.price ++ " ILS | Stock: "
        ++ toString pr.1.stock ++ " units"))

/-- `_format_upsell_for_prompt` (lines 492–497). -/
def formatUpsellForPrompt (p : Product) : String :=
  displayName p ++ "\n" ++ "Price: " ++ ratStr p.price ++ " ILS\n"
    ++ "Stock: " ++ toString p.stock ++ " units\n" ++ "Category: " ++ p.category

/-- The system prompt of `_generate_recommendation_with_guardrails` (lines
407–452).  The long static instruction text is abbreviated; every dynamic,
catalog-derived component — the product context, the main product facts,
the upsell block, the requirement description — is assembled as in the
source.  No claim inspects the literal prompt text. -/
def recommendationSystemPrompt (ct : CustomerType) (reqs : RequirementProfile)
    (products : List Product) (main : Product) (upsell : Option Product) : String :=
  "You are a professional computer store sales assistant helping a "
    ++ customerTypeStr ct ++ ".\n"
    ++ "AVAILABLE PRODUCTS IN STOCK:\n" ++ buildStrictProductContext products ++ "\n"
    ++ "YOUR PRIMARY RECOMMENDATION:\n"
    ++ "Product: " ++ displayName main ++ "\n"
    ++ "SKU: " ++ main.sku ++ "\n"
    ++ "Price: " ++ ratStr main.price ++ " ILS\n"
    ++ "Stock: " ++ toString main.stock ++ " units available\n"
    ++ "SUGGESTED ACCESSORY (optional upsell):\n"
    ++ (match upsell with
        | some u => formatUpsellForPrompt u
        | none => "No accessory available") ++ "\n"
    ++ "CUSTOMER REQUIREMENTS:\n" ++ reqs.description

/-- The system prompt of `_generate_clarifying_response` (lines 280–304),
likewise abbreviated to its dynamic parts (customer type, missing slots,
suggested question; a missing question renders as Python's `None`). -/
def clarifyingSystemPrompt (ct : CustomerType) (missing : List String)
    (question : Option String) : String :=
  "You are a friendly and professional computer store sales assistant.\n"
    ++ "CUSTOMER TYPE: " ++ customerTypeStr ct ++ "\n"
    ++ "MISSING INFORMATION: " ++ String.intercalate ", " missing ++ "\n"
    ++ "Ask the clarifying question naturally IN HEBREW: "
    ++ (match question with | some q => q | none => "None")

/-- `history[-4:]` prepended to the prompt when the history is truthy. -/
def historyTail4 (history : List Msg) : List Msg :=
  if history.isEmpty then [] else history.drop (history.length - 4)

/-- The regex `\d+(?:,\d{3})*(?:\.\d+)?\s*ILS` of `_validate_response`
(line 516), returning the whole match (`group(0)`). -/
def priceIlsMatcher (cs : List Char) : Option (List Char) :=
  let ds := cs.takeWhile Char.isDigit
  firstSome (fun k =>
    let pre := ds.take k
    let r1 := cs.drop k
    firstSome (fun c =>
      let groupPart := r1.take (4 * c)
      let r2 := r1.drop (4 * c)
      let fracAlts : List (List Char × List Char) :=
        match r2 with
        | '.' :: rest =>
            let fs := rest.takeWhile Char.isDigit
            ((countsDesc fs.length).map (fun fk =>
              ('.' :: fs.take fk, rest.drop fk))) ++ [([], r2)]
        | _ => [([], r2)]
      firstSome (fun fa =>
        firstSome (fun j =>
          if "ILS".data.isPrefixOf (fa.2.drop j) then
            some (pre ++ groupPart ++ fa.1 ++ fa.2.take j ++ "ILS".data)
          else none)
          (countsDesc0 ((fa.2.takeWhile isSpaceC).length))) fracAlts)
      (countsDesc0 (maxCommaReps r1))) (countsDesc ds.length)

/-- `_validate_response` (lines 499–520): when the exact price string is
absent from the generated text, the first currency-tagged number found is
substituted (via `str.replace`, i.e. all its occurrences) with the real
price. -/
def validateResponse (response : String) (main : Product) : String :=
  if ¬ containsStr response (ratStr main.price) then
    match searchPos priceIlsMatcher response.data with
    | some tok => response.replace ⟨tok⟩ (ratStr main.price ++ " ILS")
    | none => response
  else response

/-- `_generate_template_recommendation` (lines 522–552): the deterministic
Hebrew fallback built purely from catalog fields and the requirement
profile. -/
def generateTemplateRecommendation (main : Product) (upsell : Option Product)
    (ct : CustomerType) (reqs : RequirementProfile) : String :=
  let base := "בהתבסס על הצרכים שלך כ" ++ customerTypeStr ct ++ ", "
    ++ "אני ממליץ על " ++ displayName main ++ " "
    ++ "במחיר של " ++ ratStr main.price ++ " ₪. "
  let withSpecs :=
    match main.specs with
    | none => base
    | some sp =>
        let keySpecs :=
          (if ¬ (sp.cpu.getD "").isEmpty then ["מעבד " ++ sp.cpu.getD ""] else [])
            ++ (if sp.ram_gb.getD 0 ≠ 0 then
                  [toString (sp.ram_gb.getD 0) ++ "GB זיכרון RAM"] else [])
            ++ (if sp.storage_gb.getD 0 ≠ 0 then
                  [toString (sp.storage_gb.getD 0) ++ "GB אחסון"] else [])
        if ¬ keySpecs.isEmpty then
          base ++ "הוא כולל " ++ String.intercalate ", " keySpecs
            ++ ", שמספקים " ++ reqs.description ++ ". "
        else base
  match upsell with
  | none => withSpecs
  | some u =>
      withSpecs ++ "\n\nכדי להשלים את המערכת שלך, אמליץ להוסיף את " ++ u.name
        ++ " (" ++ ratStr u.price ++ " ₪). זה השלמה מצוינת למחשב החדש שלך!"

/-- `_generate_recommendation_with_guardrails` (lines 388–478): the
external generation call inside `try`; on `LLMProviderError` the
deterministic template is returned instead. -/
def generateRecommendationWithGuardrails (llm : List Msg → Except String String)
    (user_message : String) (ct : CustomerType) (reqs : RequirementProfile)
    (products : List Product) (main : Product) (upsell : Option Product)
    (history : List Msg) : String :=
  let sys := recommendationSystemPrompt ct reqs products main upsell
  let messages := Msg.mk "system" sys :: historyTail4 history
    ++ [Msg.mk "user" user_message]
  match llm messages with
  | Except.ok response => validateResponse response main
  | Except.error _ => generateTemplateRecommendation main upsell ct reqs

/-- `_generate_clarifying_response` (lines 267–320): the generation call
inside `try`; on `LLMProviderError` the suggested question of the analysis
is returned (which, like the source, passes through whatever the analysis
holds — `None` included). -/
def generateClarifyingResponse (llm : List Msg → Except String String)
    (st : AnalysisResult) (ct : CustomerType) (user_message : String)
    (history : List Msg) : Option String :=
  let sys := clarifyingSystemPrompt ct st.missing_info st.suggested_question
  let messages := Msg.mk "system" sys :: historyTail4 history
    ++ [Msg.mk "user" user_message]
  match llm messages with
  | Except.ok response => some response
  | Except.error _ => st.suggested_question

/-- `_handle_off_topic` (lines 258–265). -/
def handleOffTopic (_message : String) : String :=
  "אני מעריך את ההודעה שלך! עם זאת, אני מתמחה בעזרה ללקוחות למצוא "
    ++ "את המחשב או האביזר המושלם לצרכים שלהם. "
    ++ "אשמח לעזור לך בכך! האם אתה מחפש מחשב נייד, מחשב נייח, "
    ++ "או אולי אביזר כלשהו היום?"

/-- `_get_product_name_hebrew` (lines 354–386). -/
def getProductNameHebrew (product_type category : Option String) : String :=
  if product_type = some "laptop" then "מחשב נייד"
  else if product_type = some "desktop" then "מחשב נייח"
  else if category = some "headset" then "אוזניות"
  else if category = some "mouse" then "עכבר"
  else if category = some "keyboard" then "מקלדת"
  else if category = some "monitor" then "מסך"
  else if category = some "bag" then "תיק"
  else if category = some "computer" then "מחשב"
  else "מחשב"

/-- `_handle_no_products_found` (lines 322–352); `int(budget)` truncates
the (nonnegative) budget. -/
def handleNoProductsFound (info : ExtractedInfo) : String :=
  let productName := getProductNameHebrew info.product_type info.category
  let mid := match info.budget_amount with
    | some b =>
        if b ≠ 0 then
          "בדקתי את המלאי הנוכחי שלנו עבור " ++ productName ++ " בטווח של "
            ++ toString b.floor ++ " ₪, "
        else "בדקתי את המלאי הנוכחי שלנו עבור " ++ productName ++ ", "
    | none => "בדקתי את המלאי הנוכחי שלנו עבור " ++ productName ++ ", "
  "תודה על שיתוף הדרישות שלך! " ++ mid
    ++ "אבל למרבה הצער אין לי כרגע מוצרים במלאי שמתאימים בדיוק לכל הדרישות שלך.\n\n"
    ++ "עם זאת, יש לי כמה אפשרויות:\n"
    ++ "1. אוכל להראות לך מוצרים דומים שקרובים לצרכים שלך\n"
    ++ "2. נוכל להתאים את התקציב מעט כדי לראות יותר אפשרויות\n"
    ++ "3. נוכל לשקול סוג מוצר אחר (נייד מול נייח)\n\n"
    ++ "מה תעדיף?"

/-! ## The per-turn orchestration (`RecommendationService.process_message`) -/

/-- One persisted chat message row. -/
structure StoredMsg where
  session_id : String
  role : String
  content : String
  deriving Repr, DecidableEq

/-- `ChatMessageRepository.create_message` (repositories.py lines
330–341): an append; timestamps are assigned monotonically, so append
order is chronological order. -/
def createMessage (db : List StoredMsg) (session_id role content : String) :
    List StoredMsg :=
  db ++ [{ session_id := session_id, role := role, content := content }]

/-- `_get_conversation_history` over `get_session_messages` (lines
343–347 and recommendation_service.py lines 561–567): the session's
messages in chronological order as role/content pairs. -/
def getConversationHistory (db : List StoredMsg) (session_id : String) : List Msg :=
  (db.filter (fun m => m.session_id = session_id)).map
    (fun m => { role := m.role, content := m.content })

/-- Parameter names accepted by `ProductMatcher.find_matching_products`
(product_matcher.py lines 31–39). -/
def findMatchingProductsParamNames : List String :=
  ["customer_type", "message", "max_budget", "product_type", "category", "limit"]

/-- Keyword arguments passed at the call site inside
`RecommendationService.process_message` (recommendation_service.py lines
189–197). -/
def processMessageFindCallKeywords : List String :=
  ["customer_type", "message", "max_budget", "product_type", "category",
   "brand", "limit"]

/-- Python call semantics: the call binds only if every keyword argument
names a parameter of the callee; otherwise it raises `TypeError`. -/
def findCallKeywordsAccepted : Bool :=
  processMessageFindCallKeywords.all (fun k => findMatchingProductsParamNames.contains k)

/-- The response dictionary of `_save_and_return_response` (lines
569–595). -/
structure TurnResponse where
  assistant_message : String
  customer_type : String
  recommended_items : List Product
  upsell_item : Option Product
  deriving Repr, DecidableEq

/-- The history that stage derivation sees: `process_message` first
persists the inbound user message (Step 2, lines 83–88), then reads the
session history (Step 3, lines 90–91). -/
def processHistory (db : List StoredMsg) (session_id user_message : String) :
    List Msg :=
  getConversationHistory (createMessage db session_id "user" user_message) session_id

/-- The conversation stage computed inside `process_message` (Step 4,
lines 93–99). -/
def processMessageStage (db : List StoredMsg) (session_id user_message : String) :
    ConversationStage :=
  (analyzeConversationState user_message (processHistory db session_id user_message)).stage

/-- The body of `process_message` (lines 79–251) under the `try`:
persist the user turn, read history, analyze, branch to the off-topic /
clarification / recommendation paths.  The recommendation path reaches the
`find_matching_products` call site, which passes the keyword `brand` that
the callee does not accept — Python raises `TypeError` there, modelled by
the keyword check.  (Session customer-type persistence and the saving of
the assistant turn mutate state the claims do not read; they are not
returned.) -/
def processMessageBody (catalog : List Product) (llm : List Msg → Except String String)
    (db : List StoredMsg) (session_customer_type : Option String)
    (session_id user_message : String) : Except String TurnResponse :=
  let history := processHistory db session_id user_message
  let st := analyzeConversationState user_message history
  if st.redirect_needed then
    Except.ok
      { assistant_message := handleOffTopic user_message
      , customer_type := session_customer_type.getD "Other"
      , recommended_items := []
      , upsell_item := none }
  else
    let idr := identifyFromConversation user_message (userContents history)
    let ct := idr.1
    let reqs := idr.2.1
    if st.needs_clarification then
      Except.ok
        { assistant_message :=
            (generateClarifyingResponse llm st ct user_message history).getD ""
        , customer_type := customerTypeStr ct
        , recommended_items := []
        , upsell_item := none }
    else
      match st.extracted_info with
      | none => Except.error "KeyError: extracted_info"
      | some info =>
        let requested_accessory := info.requested_accessory
        let total_budget := info.budget_amount
        let split :=
          if strTruthy requested_accessory ∧ ratTruthy total_budget then
            (total_budget.map (fun t => t * (3 / 4 : ℚ)),
             (total_budget.getD 0) * (1 / 4 : ℚ))
          else (total_budget, 1000)
        let computer_budget := split.1
        let accessory_budget := split.2
        if findCallKeywordsAccepted then
          let products := findMatchingProducts catalog (customerTypeStr ct)
            user_message computer_budget info.product_type info.category 5
          match products with
          | [] =>
              Except.ok
                { assistant_message := handleNoProductsFound info
                , customer_type := customerTypeStr ct
                , recommended_items := []
                , upsell_item := none }
          | main :: _ =>
              let upsell := selectUpsell catalog main (customerTypeStr ct) history
                accessory_budget requested_accessory
              let text := generateRecommendationWithGuardrails llm user_message ct
                reqs (products.take 3) main upsell history
              Except.ok
                { assistant_message := text
                , customer_type := customerTypeStr ct
                , recommended_items := [main]
                , upsell_item := upsell }
        else
          Except.error
            "TypeError: find_matching_products() got an unexpected keyword argument brand"

/-- `process_message` with its outer `except Exception` (lines 253–256),
which wraps any raised error into a `RecommendationError`. -/
def processMessage (catalog : List Product) (llm : List Msg → Except String String)
    (db : List StoredMsg) (session_customer_type : Option String)
    (session_id user_message : String) : Except String TurnResponse :=
  match processMessageBody catalog llm db session_customer_type
      session_id user_message with
  | Except.ok r => Except.ok r
  | Except.error e =>
      Except.error ("RecommendationError: Failed to process message: " ++ e)

/-! ## Helper lemmas -/

theorem firstSome_mem {f : α → Option β} :
    ∀ {l : List α} {b : β}, firstSome f l = some b → ∃ a ∈ l, f a = some b := by
  intro l
  induction l with
  | nil => intro b h; simp [firstSome] at h
  | cons a as ih =>
      intro b h
      rw [firstSome] at h
      cases hfa : f a with
      | some v =>
          refine ⟨a, by simp, ?_⟩
          rw [hfa] at h
          have hv : v = b := by simpa using h
          rw [hfa, hv]
      | none =>
          rw [hfa] at h
          simp only [Option.none_orElse] at h
          obtain ⟨a', ha', hb⟩ := ih h
          exact ⟨a', by simp [ha'], hb⟩

theorem countsDesc_mem {n k : Nat} (h : k ∈ countsDesc n) : 1 ≤ k ∧ k ≤ n := by
  simp only [countsDesc, List.mem_map, List.mem_range] at h
  obtain ⟨i, hi, rfl⟩ := h
  omega

theorem searchPos_some {f : List Char → Option α} {P : α → Prop}
    (hf : ∀ s b, f s = some b → P b) :
    ∀ {cs : List Char} {b : α}, searchPos f cs = some b → P b := by
  intro cs
  induction cs with
  | nil => intro b h; exact hf [] b (by simpa [searchPos] using h)
  | cons c rest ih =>
      intro b h
      rw [searchPos] at h
      cases hfc : f (c :: rest) with
      | some v => rw [hfc] at h; simp at h; exact hf _ _ (hfc.trans (by rw [h]))
      | none => rw [hfc] at h; simp only [Option.none_orElse] at h; exact ih h

theorem all_takeWhile (p : α → Bool) : ∀ (l : List α), (l.takeWhile p).all p = true := by
  intro l
  induction l with
  | nil => rfl
  | cons a as ih =>
      rw [List.takeWhile]
      cases hpa : p a with
      | true => simp [hpa, ih]
      | false => rfl

theorem takeish_digits {cs : List Char} {k : Nat} (h1 : 1 ≤ k)
    (h2 : k ≤ (cs.takeWhile Char.isDigit).length) :
    (cs.takeWhile Char.isDigit).take k ≠ []
      ∧ ((cs.takeWhile Char.isDigit).take k).all Char.isDigit = true := by
  constructor
  · intro hnil
    rw [List.take_eq_nil_iff] at hnil
    rcases hnil with h | h
    · omega
    · rw [h] at h2; simp at h2; omega
  · rw [List.all_eq_true]
    intro x hx
    exact (List.all_eq_true.mp (all_takeWhile Char.isDigit cs)) x
      (List.take_subset _ _ hx)

/-- Any capture the RAM regex produces is a nonempty digit string
(so the uncaught `int` on it cannot raise). -/
theorem ramSearch_digits {cs cap : List Char} (h : ramSearch cs = some cap) :
    cap ≠ [] ∧ cap.all Char.isDigit = true := by
  refine searchPos_some (f := fun s => ramBranchA s <|> ramBranchB s)
    (P := fun cap => cap ≠ [] ∧ cap.all Char.isDigit = true) ?_ h
  intro s b hb
  cases ha : ramBranchA s with
  | some v =>
      have hvb : v = b := by simpa [ha] using hb
      subst hvb
      obtain ⟨k, hk, hcap⟩ := firstSome_mem (by simpa [ramBranchA] using ha)
      obtain ⟨hk1, hk2⟩ := countsDesc_mem hk
      by_cases hc : wsLitThen gbLits
          (fun r2 => wsLitThen ramLits (fun _ => true) r2) (s.drop k)
      · rw [if_pos hc] at hcap
        cases hcap
        exact takeish_digits hk1 hk2
      · rw [if_neg hc] at hcap; cases hcap
  | none =>
      have hb' : ramBranchB s = some b := by simpa [ha] using hb
      obtain ⟨t, _, ht⟩ := firstSome_mem (by simpa [ramBranchB] using hb')
      split at ht
      · obtain ⟨j, _, hj⟩ := firstSome_mem ht
        obtain ⟨k, hk, hcap⟩ := firstSome_mem hj
        obtain ⟨hk1, hk2⟩ := countsDesc_mem hk
        split at hcap
        · cases hcap
          exact takeish_digits hk1 hk2
        · cases hcap
      · cases ht

/-- Every run the bare-number `findall` produces is a nonempty digit
string. -/
theorem bareRunsAux_digits :
    ∀ (fuel : Nat) (prev : Option Char) (cs : List Char) {r : List Char},
      r ∈ bareRunsAux fuel prev cs → r ≠ [] ∧ r.all Char.isDigit = true := by
  intro fuel
  induction fuel with
  | zero => intro prev cs r h; simp [bareRunsAux] at h
  | succ n ih =>
      intro prev cs r h
      cases cs with
      | nil => simp [bareRunsAux] at h
      | cons c rest =>
          rw [bareRunsAux.eq_def] at h
          dsimp only at h
          split at h
          case isTrue hd =>
            rw [List.mem_append] at h
            rcases h with h | h
            · split at h
              · simp only [List.mem_singleton] at h
                subst h
                refine ⟨by simp, ?_⟩
                simp only [List.all_cons, hd, Bool.true_and]
                exact all_takeWhile Char.isDigit rest
              · simp at h
            · exact ih _ _ h
          case isFalse hd => exact ih _ _ h

theorem bareNumberRuns_digits {cs r : List Char} (h : r ∈ bareNumberRuns cs) :
    r ≠ [] ∧ r.all Char.isDigit = true :=
  bareRunsAux_digits cs.length none cs h

theorem intE_ok {r : List Char} (h1 : r ≠ []) (h2 : r.all Char.isDigit = true) :
    intE r = Except.ok (digitsVal r) := by
  simp [intE, parseDigits, h1, h2]

/-- The fallback loop never raises on digit runs, and finds a value exactly
when some run parses into `[50, 50000]`. -/
theorem firstBudgetInRangeE_ok :
    ∀ {runs : List (List Char)},
      (∀ r ∈ runs, r ≠ [] ∧ r.all Char.isDigit = true) →
      ∃ ob, firstBudgetInRangeE runs = Except.ok ob
        ∧ ob.isSome = runs.any (fun r =>
            decide (50 ≤ digitsVal r) && decide (digitsVal r ≤ 50000)) := by
  intro runs
  induction runs with
  | nil => intro _; exact ⟨none, rfl, rfl⟩
  | cons r rs ih =>
      intro hall
      obtain ⟨h1, h2⟩ := hall r (by simp)
      by_cases hr : 50 ≤ digitsVal r ∧ digitsVal r ≤ 50000
      · refine ⟨some (digitsVal r), ?_, ?_⟩
        · simp only [firstBudgetInRangeE, intE_ok h1 h2]
          rw [if_pos hr]
        · simp [hr.1, hr.2]
      · obtain ⟨ob, hob, hsome⟩ := ih (fun x hx => hall x (by simp [hx]))
        refine ⟨ob, ?_, ?_⟩
        · simp only [firstBudgetInRangeE, intE_ok h1 h2]
          rw [if_neg hr, hob]
        · rw [hsome]
          simp only [List.any_cons]
          have : (decide (50 ≤ digitsVal r) && decide (digitsVal r ≤ 50000)) = false := by
            rcases Decidable.not_and_iff_or_not.mp hr with h | h <;> simp [h]
          rw [this, Bool.false_or]

/-- The budget step never raises. -/
theorem budgetStepE_ok (cs : List Char) : ∃ bm, budgetStepE cs = Except.ok bm := by
  rw [budgetStepE]
  cases hscan : scanBudgetPatterns cs with
  | some v =>
      dsimp only
      by_cases hm : hasMinMarker cs = true
      · exact ⟨_, by rw [if_pos hm]⟩
      · exact ⟨_, by rw [if_neg hm]⟩
  | none =>
      dsimp only
      by_cases he : (bareNumberRuns cs).isEmpty = true
      · exact ⟨_, by rw [if_pos he]⟩
      · by_cases ht : hasTechKeyword cs = true
        · exact ⟨_, by rw [if_neg he, if_pos ht]⟩
        · obtain ⟨ob, hob, _⟩ := firstBudgetInRangeE_ok
            (fun r hr => bareNumberRuns_digits hr)
          exact ⟨_, by rw [if_neg he, if_neg ht, hob]⟩

/-- The RAM step never raises. -/
theorem ramStepE_ok (cs : List Char) : ∃ r, ramStepE cs = Except.ok r := by
  rw [ramStepE]
  cases hs : ramSearch cs with
  | none => exact ⟨none, rfl⟩
  | some cap =>
      obtain ⟨h1, h2⟩ := ramSearch_digits hs
      exact ⟨some (digitsVal cap), by dsimp only; rw [intE_ok h1 h2]⟩

/-- Successful steps determine the total extraction. -/
theorem extract_eq_assemble {t : String} {bm : Option ℚ × Bool} {r : Option Nat}
    (hb : budgetStepE t.data = Except.ok bm) (hr : ramStepE t.data = Except.ok r) :
    extractConversationInfo t = assembleInfo t.data bm.1 bm.2 r := by
  rw [extractConversationInfo, extractConversationInfoE, hb, hr]

theorem assembleInfo_budget (cs : List Char) (b : Option ℚ) (m : Bool)
    (r : Option Nat) :
    (assembleInfo cs b m r).budget_amount = b
      ∧ (assembleInfo cs b m r).has_budget = b.isSome
      ∧ (assembleInfo cs b m r).is_minimum_budget = m := by
  refine ⟨rfl, rfl, rfl⟩

/-! ## Claim theorems -/

/-- C9.  Slot extraction over one lower-cased text blob is deterministic
and total for every string input: in the exception-explicit model
`extractConversationInfoE`, every input produces `Except.ok` of a slot
record — the caught `float` in the budget scan and the two uncaught `int`
applications (on bare-number runs and on the RAM capture, both provably
digit strings) never surface an error; absent information only leaves the
corresponding slot unset. -/
theorem c9_extract_total (text : String) :
    ∃ info, extractConversationInfoE text = Except.ok info := by
  obtain ⟨bm, hbm⟩ := budgetStepE_ok text.data
  obtain ⟨r, hr⟩ := ramStepE_ok text.data
  exact ⟨assembleInfo text.data bm.1 bm.2 r,
    by rw [extractConversationInfoE, hbm, hr]⟩

/-- C6.  Whenever the anchored budget scan parses a value `v` and the
minimum-marker test holds, the extraction stores `max (v * 10) 10000` as
the budget — never below 10000 and at least ten times the parsed value —
and sets `is_minimum_budget`. -/
theorem c6_minimum_budget (t : String) (v : Nat)
    (hscan : scanBudgetPatterns t.data = some v)
    (hmark : hasMinMarker t.data = true) :
    (extractConversationInfo t).budget_amount = some ((max (v * 10) 10000 : Nat) : ℚ)
      ∧ (extractConversationInfo t).is_minimum_budget = true
      ∧ 10000 ≤ max (v * 10) 10000 ∧ v * 10 ≤ max (v * 10) 10000 := by
  have hb : budgetStepE t.data
      = Except.ok (some ((max (v * 10) 10000 : Nat) : ℚ), true) := by
    rw [budgetStepE, hscan]
    dsimp only
    rw [if_pos hmark]
  obtain ⟨r, hr⟩ := ramStepE_ok t.data
  have he := extract_eq_assemble hb hr
  refine ⟨?_, ?_, Nat.le_max_right _ _, Nat.le_max_left _ _⟩
  · rw [he]; rfl
  · rw [he]; rfl

/-- C6 witness: the spec example "200 ומעלה" — the anchored pattern
`NUM ומעלה` parses 200, the marker holds, and the extraction yields budget
10000 (which is ≥ 2000) with `is_minimum_budget`. -/
theorem c6_witness :
    scanBudgetPatterns "200 ומעלה".data = some 200
      ∧ hasMinMarker "200 ומעלה".data = true
      ∧ (extractConversationInfo "200 ומעלה").budget_amount = some (10000 : ℚ)
      ∧ (extractConversationInfo "200 ומעלה").is_minimum_budget = true
      ∧ (2000 : ℚ) ≤ 10000 := by
  have hscan : scanBudgetPatterns "200 ומעלה".data = some 200 := by decide
  have hmark : hasMinMarker "200 ומעלה".data = true := by decide
  obtain ⟨h1, h2, _, _⟩ := c6_minimum_budget "200 ומעלה" 200 hscan hmark
  exact ⟨hscan, hmark, by simpa using h1, h2, by norm_num⟩

/-- C5 counterexample.  In "my ssd laptop is fast, 3000" the bare number
3000 is in `[50, 50000]` and is nowhere near the technical token "ssd",
yet — because the source tests the technical-unit keywords against the
whole text, not for adjacency — no budget is extracted.  The claim, which
predicts `budget_amount = 3000` here, is false. -/
theorem c5_counterexample :
    scanBudgetPatterns "my ssd laptop is fast, 3000".data = none
      ∧ (bareNumberRuns "my ssd laptop is fast, 3000".data).any
          (fun r => decide (50 ≤ digitsVal r) && decide (digitsVal r ≤ 50000)) = true
      ∧ hasTechKeyword "my ssd laptop is fast, 3000".data = true
      ∧ (extractConversationInfo "my ssd laptop is fast, 3000").has_budget = false
      ∧ (extractConversationInfo "my ssd laptop is fast, 3000").budget_amount = none := by
  refine ⟨by decide, by decide, by decide, by decide, by decide⟩

/-- C5 amended.  When no anchored budget pattern matches, a bare number is
accepted as the budget if and only if some bare-number candidate lies in
`[50, 50000]` *and no technical-unit token (gb/ram/tb/ssd/hdd/ראם/גיגה)
occurs anywhere in the text*; any occurrence of such a token — adjacent to
the number or not — blocks the whole bare-number path. -/
theorem c5_amended_global_veto (t : String)
    (hscan : scanBudgetPatterns t.data = none) :
    (extractConversationInfo t).has_budget = true
      ↔ (hasTechKeyword t.data = false
          ∧ (bareNumberRuns t.data).any
              (fun r => decide (50 ≤ digitsVal r) && decide (digitsVal r ≤ 50000)) = true) := by
  obtain ⟨r, hr⟩ := ramStepE_ok t.data
  by_cases he : (bareNumberRuns t.data).isEmpty = true
  · have hb : budgetStepE t.data = Except.ok (none, false) := by
      rw [budgetStepE, hscan]
      dsimp only
      rw [if_pos he]
    rw [extract_eq_assemble hb hr]
    have hnone : (bareNumberRuns t.data).any
        (fun r => decide (50 ≤ digitsVal r) && decide (digitsVal r ≤ 50000)) = false := by
      rw [List.isEmpty_iff] at he
      rw [he]
      rfl
    simp [assembleInfo, hnone]
  · by_cases ht : hasTechKeyword t.data = true
    · have hb : budgetStepE t.data = Except.ok (none, false) := by
        rw [budgetStepE, hscan]
        dsimp only
        rw [if_neg he, if_pos ht]
      rw [extract_eq_assemble hb hr]
      simp [assembleInfo, ht]
    · obtain ⟨ob, hob, hsome⟩ := firstBudgetInRangeE_ok
        (fun x hx => bareNumberRuns_digits hx)
      have hb : budgetStepE t.data
          = Except.ok (ob.map (fun n => ((n : Nat) : ℚ)), false) := by
        rw [budgetStepE, hscan]
        dsimp only
        rw [if_neg he, if_neg ht, hob]
      rw [extract_eq_assemble hb hr]
      have : (assembleInfo t.data (ob.map (fun n => ((n : Nat) : ℚ))) false r).has_budget
          = (ob.map (fun n => ((n : Nat) : ℚ))).isSome := rfl
      have hmap : (ob.map (fun n => ((n : Nat) : ℚ))).isSome = ob.isSome := by
        cases ob <;> rfl
      rw [this, hmap, hsome]
      simp [Bool.eq_false_iff.mpr ht]

/-- C5 witness for the amended claim: "my laptop is fast, 3000" has no
anchored match and no technical token, so the bare 3000 is accepted. -/
theorem c5_witness :
    (extractConversationInfo "my laptop is fast, 3000").has_budget = true := by
  refine (c5_amended_global_veto "my laptop is fast, 3000" (by decide)).mpr ?_
  exact ⟨by decide, by decide⟩

/-! ### C2: current-turn precedence in the merge -/

theorem fillBudget_keeps (x hist : ExtractedInfo) (h : x.has_budget = true) :
    fillBudget x hist = x := by
  rw [fillBudget, if_neg]
  simp [h]

theorem fill_later_budget (x hist : ExtractedInfo) :
    ((fillUseCase x hist).budget_amount = x.budget_amount
        ∧ (fillUseCase x hist).has_budget = x.has_budget)
      ∧ ((fillProductType x hist).budget_amount = x.budget_amount
        ∧ (fillProductType x hist).has_budget = x.has_budget)
      ∧ ((fillCategory x hist).budget_amount = x.budget_amount
        ∧ (fillCategory x hist).has_budget = x.has_budget)
      ∧ ((fillBrand x hist).budget_amount = x.budget_amount
        ∧ (fillBrand x hist).has_budget = x.has_budget) := by
  refine ⟨?_, ?_, ?_, ?_⟩ <;>
    first
      | exact (by rw [fillUseCase]; split <;> exact ⟨rfl, rfl⟩)
      | exact (by rw [fillProductType]; split <;> exact ⟨rfl, rfl⟩)
      | exact (by rw [fillCategory]; split <;> exact ⟨rfl, rfl⟩)
      | exact (by rw [fillBrand]; split <;> exact ⟨rfl, rfl⟩)

theorem fill_other_use_case (x hist : ExtractedInfo) :
    ((fillBudget x hist).use_case_keywords = x.use_case_keywords
        ∧ (fillBudget x hist).has_use_case = x.has_use_case)
      ∧ ((fillProductType x hist).use_case_keywords = x.use_case_keywords
        ∧ (fillProductType x hist).has_use_case = x.has_use_case)
      ∧ ((fillCategory x hist).use_case_keywords = x.use_case_keywords
        ∧ (fillCategory x hist).has_use_case = x.has_use_case)
      ∧ ((fillBrand x hist).use_case_keywords = x.use_case_keywords
        ∧ (fillBrand x hist).has_use_case = x.has_use_case) := by
  refine ⟨?_, ?_, ?_, ?_⟩ <;>
    first
      | exact (by rw [fillBudget]; split <;> exact ⟨rfl, rfl⟩)
      | exact (by rw [fillProductType]; split <;> exact ⟨rfl, rfl⟩)
      | exact (by rw [fillCategory]; split <;> exact ⟨rfl, rfl⟩)
      | exact (by rw [fillBrand]; split <;> exact ⟨rfl, rfl⟩)

theorem fillUseCase_keeps (x hist : ExtractedInfo) (h : x.has_use_case = true) :
    fillUseCase x hist = x := by
  rw [fillUseCase, if_neg]
  simp [h]

theorem fill_other_product_type (x hist : ExtractedInfo) :
    ((fillBudget x hist).product_type = x.product_type
        ∧ (fillBudget x hist).has_product_type = x.has_product_type)
      ∧ ((fillUseCase x hist).product_type = x.product_type
        ∧ (fillUseCase x hist).has_product_type = x.has_product_type)
      ∧ ((fillCategory x hist).product_type = x.product_type
        ∧ (fillCategory x hist).has_product_type = x.has_product_type)
      ∧ ((fillBrand x hist).product_type = x.product_type
        ∧ (fillBrand x hist).has_product_type = x.has_product_type) := by
  refine ⟨?_, ?_, ?_, ?_⟩ <;>
    first
      | exact (by rw [fillBudget]; split <;> exact ⟨rfl, rfl⟩)
      | exact (by rw [fillUseCase]; split <;> exact ⟨rfl, rfl⟩)
      | exact (by rw [fillCategory]; split <;> exact ⟨rfl, rfl⟩)
      | exact (by rw [fillBrand]; split <;> exact ⟨rfl, rfl⟩)

theorem fillProductType_keeps (x hist : ExtractedInfo) (h : x.has_product_type = true) :
    fillProductType x hist = x := by
  rw [fillProductType, if_neg]
  simp [h]

theorem fill_other_category (x hist : ExtractedInfo) :
    ((fillBudget x hist).category = x.category
        ∧ (fillBudget x hist).has_category = x.has_category)
      ∧ ((fillUseCase x hist).category = x.category
        ∧ (fillUseCase x hist).has_category = x.has_category)
      ∧ ((fillProductType x hist).category = x.category
        ∧ (fillProductType x hist).has_category = x.has_category)
      ∧ ((fillBrand x hist).category = x.category
        ∧ (fillBrand x hist).has_category = x.has_category) := by
  refine ⟨?_, ?_, ?_, ?_⟩ <;>
    first
      | exact (by rw [fillBudget]; split <;> exact ⟨rfl, rfl⟩)
      | exact (by rw [fillUseCase]; split <;> exact ⟨rfl, rfl⟩)
      | exact (by rw [fillProductType]; split <;> exact ⟨rfl, rfl⟩)
      | exact (by rw [fillBrand]; split <;> exact ⟨rfl, rfl⟩)

theorem fillCategory_keeps (x hist : ExtractedInfo) (h : x.has_category = true) :
    fillCategory x hist = x := by
  rw [fillCategory, if_neg]
  simp [h]

theorem fill_other_brand (x hist : ExtractedInfo) :
    ((fillBudget x hist).brand = x.brand
        ∧ (fillBudget x hist).has_brand_preference = x.has_brand_preference)
      ∧ ((fillUseCase x hist).brand = x.brand
        ∧ (fillUseCase x hist).has_brand_preference = x.has_brand_preference)
      ∧ ((fillProductType x hist).brand = x.brand
        ∧ (fillProductType x hist).has_brand_preference = x.has_brand_preference)
      ∧ ((fillCategory x hist).brand = x.brand
        ∧ (fillCategory x hist).has_brand_preference = x.has_brand_preference) := by
  refine ⟨?_, ?_, ?_, ?_⟩ <;>
    first
      | exact (by rw [fillBudget]; split <;> exact ⟨rfl, rfl⟩)
      | exact (by rw [fillUseCase]; split <;> exact ⟨rfl, rfl⟩)
      | exact (by rw [fillProductType]; split <;> exact ⟨rfl, rfl⟩)
      | exact (by rw [fillCategory]; split <;> exact ⟨rfl, rfl⟩)

theorem fillBrand_keeps (x hist : ExtractedInfo) (h : x.has_brand_preference = true) :
    fillBrand x hist = x := by
  rw [fillBrand, if_neg]
  simp [h]

/-- Every field the current message resolved survives the merge
unchanged. -/
theorem mergeInfo_keeps_current (cur hist : ExtractedInfo) :
    (cur.has_budget = true → (mergeInfo cur hist).budget_amount = cur.budget_amount
        ∧ (mergeInfo cur hist).has_budget = true)
      ∧ (cur.has_use_case = true →
          (mergeInfo cur hist).use_case_keywords = cur.use_case_keywords
            ∧ (mergeInfo cur hist).has_use_case = true)
      ∧ (cur.has_product_type = true →
          (mergeInfo cur hist).product_type = cur.product_type
            ∧ (mergeInfo cur hist).has_product_type = true)
      ∧ (cur.has_category = true → (mergeInfo cur hist).category = cur.category
            ∧ (mergeInfo cur hist).has_category = true)
      ∧ (cur.has_brand_preference = true → (mergeInfo cur hist).brand = cur.brand
            ∧ (mergeInfo cur hist).has_brand_preference = true) := by
  rw [mergeInfo]
  split
  case isFalse => exact ⟨fun h => ⟨rfl, h⟩, fun h => ⟨rfl, h⟩, fun h => ⟨rfl, h⟩,
    fun h => ⟨rfl, h⟩, fun h => ⟨rfl, h⟩⟩
  case isTrue =>
    set a := fillBudget cur hist with ha
    set b := fillUseCase a hist with hb
    set c := fillProductType b hist with hc
    set d := fillCategory c hist with hd
    refine ⟨?_, ?_, ?_, ?_, ?_⟩
    · intro h
      have h1 : a = cur := fillBudget_keeps cur hist h
      have hbud : (fillBrand d hist).budget_amount = a.budget_amount
          ∧ (fillBrand d hist).has_budget = a.has_budget := by
        obtain ⟨p1, p2, p3, p4⟩ := fill_later_budget a hist
        rw [hd, hc, hb]
        constructor
        · rw [(fill_later_budget d hist).2.2.2.1, hd,
            (fill_later_budget c hist).2.2.1.1, hc,
            (fill_later_budget b hist).2.1.1, hb, p1.1]
        · rw [(fill_later_budget d hist).2.2.2.2, hd,
            (fill_later_budget c hist).2.2.1.2, hc,
            (fill_later_budget b hist).2.1.2, hb, p1.2]
      rw [hbud.1, hbud.2, h1, h]
      exact ⟨rfl, rfl⟩
    · intro h
      have h1 : (fillBudget cur hist).has_use_case = cur.has_use_case :=
        (fill_other_use_case cur hist).1.2
      have h2 : b = a := fillUseCase_keeps a hist (by rw [ha, h1, h])
      constructor
      · rw [(fill_other_use_case d hist).2.2.2.1, hd,
          (fill_other_use_case c hist).2.2.1.1, hc,
          (fill_other_use_case b hist).2.1.1, h2, ha,
          (fill_other_use_case cur hist).1.1]
      · rw [(fill_other_use_case d hist).2.2.2.2, hd,
          (fill_other_use_case c hist).2.2.1.2, hc,
          (fill_other_use_case b hist).2.1.2, h2, ha, h1, h]
    · intro h
      have h1 : b.has_product_type = cur.has_product_type := by
        rw [hb, (fill_other_product_type a hist).2.1.2, ha,
          (fill_other_product_type cur hist).1.2]
      have h2 : c = b := fillProductType_keeps b hist (by rw [h1, h])
      constructor
      · rw [(fill_other_product_type d hist).2.2.2.1, hd,
          (fill_other_product_type c hist).2.2.1.1, h2, hb,
          (fill_other_product_type a hist).2.1.1, ha,
          (fill_other_product_type cur hist).1.1]
      · rw [(fill_other_product_type d hist).2.2.2.2, hd,
          (fill_other_product_type c hist).2.2.1.2, h2, h1, h]
    · intro h
      have h1 : c.has_category = cur.has_category := by
        rw [hc, (fill_other_category b hist).2.2.1.2, hb,
          (fill_other_category a hist).2.1.2, ha,
          (fill_other_category cur hist).1.2]
      have h2 : d = c := fillCategory_keeps c hist (by rw [h1, h])
      constructor
      · rw [(fill_other_category d hist).2.2.2.1, h2, hc,
          (fill_other_category b hist).2.2.1.1, hb,
          (fill_other_category a hist).2.1.1, ha,
          (fill_other_category cur hist).1.1]
      · rw [(fill_other_category d hist).2.2.2.2, h2, h1, h]
    · intro h
      have h1 : d.has_brand_preference = cur.has_brand_preference := by
        rw [hd, (fill_other_brand c hist).2.2.2.2, hc,
          (fill_other_brand b hist).2.2.1.2, hb,
          (fill_other_brand a hist).2.1.2, ha,
          (fill_other_brand cur hist).1.2]
      have h2 : fillBrand d hist = d := fillBrand_keeps d hist (by rw [h1, h])
      constructor
      · rw [h2, hd, (fill_other_brand c hist).2.2.2.1, hc,
          (fill_other_brand b hist).2.2.1.1, hb,
          (fill_other_brand a hist).2.1.1, ha,
          (fill_other_brand cur hist).1.1]
      · rw [h2, h1, h]

/-- The merged record `analyze_conversation_state` reports. -/
theorem analyze_extracted_eq {current : String} {history : List Msg}
    {merged : ExtractedInfo}
    (h : (analyzeConversationState current history).extracted_info = some merged) :
    merged = mergeInfo (extractConversationInfo (asciiLower current))
      (extractConversationInfo ⟨allUserText current history⟩) := by
  rw [analyzeConversationState] at h
  split at h
  · simp at h
  · simp only [Option.some.injEq] at h
    exact h.symm

/-- C2.  For every current message and conversation history, the merged
slot state keeps every field the current message resolved unchanged: a
history-derived value is only ever copied into a field the current message
left unset. -/
theorem c2_current_overrides_history (current : String) (history : List Msg)
    (merged : ExtractedInfo)
    (h : (analyzeConversationState current history).extracted_info = some merged) :
    (((extractConversationInfo (asciiLower current)).has_budget = true →
        merged.budget_amount = (extractConversationInfo (asciiLower current)).budget_amount)
      ∧ ((extractConversationInfo (asciiLower current)).has_use_case = true →
        merged.use_case_keywords
          = (extractConversationInfo (asciiLower current)).use_case_keywords)
      ∧ ((extractConversationInfo (asciiLower current)).has_product_type = true →
        merged.product_type = (extractConversationInfo (asciiLower current)).product_type)
      ∧ ((extractConversationInfo (asciiLower current)).has_category = true →
        merged.category = (extractConversationInfo (asciiLower current)).category)
      ∧ ((extractConversationInfo (asciiLower current)).has_brand_preference = true →
        merged.brand = (extractConversationInfo (asciiLower current)).brand)) := by
  have he := analyze_extracted_eq h
  obtain ⟨k1, k2, k3, k4, k5⟩ := mergeInfo_keeps_current
    (extractConversationInfo (asciiLower current))
    (extractConversationInfo ⟨allUserText current history⟩)
  subst he
  exact ⟨fun h' => (k1 h').1, fun h' => (k2 h').1, fun h' => (k3 h').1,
    fun h' => (k4 h').1, fun h' => (k5 h').1⟩

/-- C2 witness: history asserts budget 3000, the current message asserts
budget 5000; the merged budget is 5000. -/
theorem c2_witness :
    ∃ merged, (analyzeConversationState "תקציב 5000"
        [{ role := "user", content := "תקציב 3000" }]).extracted_info = some merged
      ∧ merged.budget_amount = some (5000 : ℚ) := by
  cases hm : (analyzeConversationState "תקציב 5000"
      [{ role := "user", content := "תקציב 3000" }]).extracted_info with
  | none => exact absurd hm (by decide)
  | some merged =>
      refine ⟨merged, rfl, ?_⟩
      have h1 := (c2_current_overrides_history "תקציב 5000"
        [{ role := "user", content := "תקציב 3000" }] merged hm).1
      have hb : (extractConversationInfo (asciiLower "תקציב 5000")).has_budget = true := by
        decide
      rw [h1 hb]
      decide

/-! ### C3: question-generation priority -/

/-- A slot state with the use case resolved (bucket "student") and both
budget and product type missing. -/
def c3Info : ExtractedInfo :=
  { has_use_case := true, use_case_keywords := ["student"] }

/-- C3 counterexample.  With the use case resolved and both budget and
product type missing, the generated clarifying question is the
(student-specialised) product-type question, not the budget question — the
question generator checks `product_type` *before* `budget` (source lines
509–528), the opposite of the stage-derivation order, so the claim that
both use the priority use_case > budget > product_type is false. -/
theorem c3_counterexample :
    generateClarifyingQuestion ["budget", "product_type"] c3Info
        = "האם תעדיף מחשב נייד לניידות בין שיעורים, או מחשב נייח לחדר הלימודים שלך?"
      ∧ generateClarifyingQuestion ["budget", "product_type"] c3Info
        ≠ "מה טווח התקציב שלך לרכישה? זה יעזור לי להראות לך את האפשרויות הטובות ביותר הזמינות." := by
  exact ⟨by decide, by decide⟩

/-- C3 amended.  Stage derivation prioritises use_case > budget >
product_type, but question generation prioritises use_case > product_type >
budget: whenever use_case is not missing and product_type is missing, the
generated question is the product-type question — regardless of whether
budget is also missing. -/
theorem c3_amended_priority (missing : List String) (info : ExtractedInfo)
    (h1 : missing.contains "use_case" = false)
    (h2 : missing.contains "product_type" = true) :
    ∃ q, productTypeQuestionBranch missing info = some q
      ∧ generateClarifyingQuestion missing info = q := by
  have hu : useCaseQuestionBranch missing info = none := by
    rw [useCaseQuestionBranch, if_neg]
    intro hcc
    rw [h1] at hcc
    exact absurd hcc (by decide)
  have hp : ∃ q, productTypeQuestionBranch missing info = some q := by
    rw [productTypeQuestionBranch, if_pos h2]
    exact ⟨_, rfl⟩
  obtain ⟨q, hq⟩ := hp
  refine ⟨q, hq, ?_⟩
  rw [generateClarifyingQuestion, hu, hq]

/-- C3 witness: the amended priority at the counterexample input. -/
theorem c3_witness :
    ∃ q, productTypeQuestionBranch ["budget", "product_type"] c3Info = some q
      ∧ generateClarifyingQuestion ["budget", "product_type"] c3Info = q :=
  c3_amended_priority ["budget", "product_type"] c3Info (by decide) (by decide)

/-! ### C10: the stage GREETING is unreachable through process_message -/

theorem processHistory_ne_nil (db : List StoredMsg) (sid msg : String) :
    processHistory db sid msg ≠ [] := by
  rw [processHistory, getConversationHistory, createMessage, List.filter_append]
  intro h
  rw [List.map_eq_nil_iff, List.append_eq_nil] at h
  have := h.2
  simp at this

theorem determineStage_ne_greeting (info : ExtractedInfo) (history : List Msg)
    (hne : history ≠ []) : determineStage info history ≠ ConversationStage.greeting := by
  rw [determineStage, if_neg (by simp [hne])]
  split
  · decide
  · dsimp only
    split
    · decide
    · split
      · decide
      · split
        · decide
        · split
          · decide
          · decide

/-- C10.  `process_message` persists the inbound user message (Step 2)
before reading the history that stage derivation uses (Steps 3–4), so that
history always contains at least the current user turn; consequently no
invocation of `process_message` ever derives stage GREETING. -/
theorem c10_no_greeting (db : List StoredMsg) (sid msg : String) :
    processMessageStage db sid msg ≠ ConversationStage.greeting := by
  rw [processMessageStage, analyzeConversationState]
  split
  · decide
  · exact determineStage_ne_greeting _ _ (processHistory_ne_nil db sid msg)

/-- C10 witness: a concrete invocation on an empty store. -/
theorem c10_witness :
    processMessageStage [] "s1" "אני צריך מחשב" ≠ ConversationStage.greeting :=
  c10_no_greeting [] "s1" "אני צריך מחשב"

/-! ### C7: the Gamer GPU gate -/

theorem specPass_gamer (gaming : Bool) (p : Product) :
    specPass "Gamer" gaming p
      = (p.specs.isSome && isComputerT p
          && !hasIntegratedMarker (gpuOf p) && hasDiscreteMarker (gpuOf p)) := by
  rw [specPass]
  cases hs : p.specs.isSome <;> cases hc : isComputerT p <;>
    cases hi : hasIntegratedMarker (gpuOf p) <;>
    cases hd : hasDiscreteMarker (gpuOf p) <;>
    simp [hs, hc, hi, hd]

/-- The laptop of the spec example: its GPU string contains both the
discrete marker "radeon" and the integrated marker "vega". -/
def vegaBook : Product :=
  { sku := "LAP-AMD-001", name := "Vega Book", brand := "Acer"
  , product_type := "laptop", category := "computer", price := 2800, stock := 2
  , specs := some { ram_gb := some 16, gpu := some "AMD Radeon Vega 8" } }

/-- C7.  Under the Gamer spec gate an item passes exactly when it has
truthy specs, is a computer, its GPU string contains no integrated marker
(vega/uhd/iris) and contains a discrete marker (rtx/radeon/nvidia/geforce);
in particular an item whose GPU string contains an integrated marker is
excluded even when a discrete-family substring is also present, as the
"AMD Radeon Vega 8" example shows. -/
theorem c7_gamer_integrated_exclusion :
    (∀ (products : List Product) (message : String) (p : Product),
        p ∈ filterBySpecs products "Gamer" message
          ↔ p ∈ products ∧ p.specs.isSome = true ∧ isComputerT p = true
              ∧ hasIntegratedMarker (gpuOf p) = false
              ∧ hasDiscreteMarker (gpuOf p) = true)
      ∧ vegaBook ∉ filterBySpecs [vegaBook] "Gamer" "גיימינג"
      ∧ hasDiscreteMarker (gpuOf vegaBook) = true := by
  refine ⟨?_, by decide, by decide⟩
  intro products message p
  rw [filterBySpecs]
  constructor
  · intro hp
    have hmem : p ∈ products.filter (specPass "Gamer"
        (gamingKeywords.any (fun k => sub k.data (lowerL message.data)))) := by
      by_cases he : (products.filter (specPass "Gamer"
          (gamingKeywords.any (fun k => sub k.data (lowerL message.data))))).isEmpty = true
      · rw [if_pos he] at hp; simp at hp
      · rwa [if_neg he] at hp
    rw [List.mem_filter, specPass_gamer] at hmem
    obtain ⟨hin, hand⟩ := hmem
    simp only [Bool.and_eq_true, Bool.not_eq_true'] at hand
    exact ⟨hin, hand.1.1.1, hand.1.1.2, hand.1.2, hand.2⟩
  · intro ⟨hin, h1, h2, h3, h4⟩
    have hmem : p ∈ products.filter (specPass "Gamer"
        (gamingKeywords.any (fun k => sub k.data (lowerL message.data)))) := by
      rw [List.mem_filter, specPass_gamer]
      refine ⟨hin, ?_⟩
      simp [h1, h2, h3, h4]
    split
    case isTrue he =>
      rw [List.isEmpty_iff] at he
      rw [he] at hmem
      simp at hmem
    case isFalse => exact hmem

/-- C7 witness: a discrete-GPU item with no integrated marker passes the
Gamer gate. -/
theorem c7_witness :
    { sku := "LAP-LNV-002", name := "Legion 5", brand := "Lenovo"
    , product_type := "laptop", category := "computer", price := 4200, stock := 3
    , specs := some { ram_gb := some 16, gpu := some "NVIDIA GeForce RTX 4060" }
    : Product } ∈ filterBySpecs
      [{ sku := "LAP-LNV-002", name := "Legion 5", brand := "Lenovo"
       , product_type := "laptop", category := "computer", price := 4200, stock := 3
       , specs := some { ram_gb := some 16, gpu := some "NVIDIA GeForce RTX 4060" } }]
      "Gamer" "gaming" :=
  (c7_gamer_integrated_exclusion.1 _ _ _).mpr
    ⟨by decide, by decide, by decide, by decide, by decide⟩

/-! ### C4: when the secondary spec gate runs -/

/-- A stocked computer with integrated graphics only. -/
def uhdDesktop : Product :=
  { sku := "DES-DLL-001", name := "Optiplex 3080", brand := "Dell"
  , product_type := "desktop", category := "computer", price := 2500, stock := 3
  , specs := some { ram_gb := some 8, gpu := some "Intel UHD 630" } }

/-- C4 counterexample.  The archetype "Student" is outside
{Engineer, Gamer} and the message "gaming computer" contains a gaming
keyword; the claim says the discrete-GPU gate is still applied, which
would exclude the integrated-graphics item — but
`find_matching_products` invokes `_filter_by_specs` only for the Engineer
and Gamer archetypes (source lines 99–101), so the item is returned. -/
theorem c4_counterexample :
    gamingKeywords.any (fun k => sub k.data (lowerL "gaming computer".data)) = true
      ∧ hasIntegratedMarker (gpuOf uhdDesktop) = true
      ∧ hasDiscreteMarker (gpuOf uhdDesktop) = false
      ∧ findMatchingProducts [uhdDesktop] "Student" "gaming computer"
          (some 3000) none none 5 = [uhdDesktop] := by
  exact ⟨by decide, by decide, by decide, by decide⟩

/-- C4 amended.  The secondary RAM/GPU spec gate runs exactly when the
archetype is Engineer or Gamer; for every other archetype the result is
the ungated base query truncated to the limit — a gaming keyword in the
message does not, by itself, trigger the gate. -/
theorem c4_amended_gate_condition (catalog : List Product) (ctype msg : String)
    (mb : Option ℚ) (pt cat : Option String) (lim : Nat) :
    (ctype = "Engineer" ∨ ctype = "Gamer" →
        findMatchingProducts catalog ctype msg mb pt cat lim
          = (filterBySpecs (matcherBaseQuery catalog ctype msg mb pt cat)
              ctype msg).take lim)
      ∧ (ctype ≠ "Engineer" → ctype ≠ "Gamer" →
        findMatchingProducts catalog ctype msg mb pt cat lim
          = (matcherBaseQuery catalog ctype msg mb pt cat).take lim) := by
  constructor
  · intro h
    rw [findMatchingProducts, if_pos h]
  · intro h1 h2
    rw [findMatchingProducts, if_neg (by simp [h1, h2])]

/-- C4 witness: a Business-archetype call with a gaming keyword returns
the plain base query. -/
theorem c4_witness :
    findMatchingProducts [uhdDesktop] "Business" "gaming מחשב" (some 3000) none none 5
      = (matcherBaseQuery [uhdDesktop] "Business" "gaming מחשב"
          (some 3000) none none).take 5 :=
  (c4_amended_gate_condition [uhdDesktop] "Business" "gaming מחשב"
    (some 3000) none none 5).2 (by decide) (by decide)

/-! ### C8: generation failure recovered locally -/

/-- C8.  When the external generation call fails, the recommendation path
returns the deterministic template built purely from catalog fields and
the clarification path returns the suggested clarifying question of the
analysis; both functions are total, so the failure is recovered where it
happens and never surfaces to the caller. -/
theorem c8_generation_fallback (llm : List Msg → Except String String) (e : String)
    (hfail : ∀ ms, llm ms = Except.error e)
    (user_message : String) (ct : CustomerType) (reqs : RequirementProfile)
    (products : List Product) (main : Product) (upsell : Option Product)
    (history : List Msg) (st : AnalysisResult) :
    generateRecommendationWithGuardrails llm user_message ct reqs products
        main upsell history
      = generateTemplateRecommendation main upsell ct reqs
    ∧ generateClarifyingResponse llm st ct user_message history
      = st.suggested_question := by
  constructor
  · simp only [generateRecommendationWithGuardrails, hfail]
  · simp only [generateClarifyingResponse, hfail]

/-- C8 witness: a concrete always-failing generator on a concrete product
and conversation state. -/
theorem c8_witness :
    generateRecommendationWithGuardrails (fun _ => Except.error "ServiceUnavailable")
        "אני רוצה מחשב" CustomerType.Student (requirementsMap CustomerType.Student)
        [uhdDesktop] uhdDesktop none []
      = generateTemplateRecommendation uhdDesktop none CustomerType.Student
          (requirementsMap CustomerType.Student)
    ∧ generateClarifyingResponse (fun _ => Except.error "ServiceUnavailable")
        (analyzeConversationState "אני רוצה מחשב"
          [{ role := "user", content := "אני רוצה מחשב" }])
        CustomerType.Student "אני רוצה מחשב" []
      = (analyzeConversationState "אני רוצה מחשב"
          [{ role := "user", content := "אני רוצה מחשב" }]).suggested_question :=
  c8_generation_fallback (fun _ => Except.error "ServiceUnavailable")
    "ServiceUnavailable" (fun _ => rfl) "אני רוצה מחשב" CustomerType.Student
    (requirementsMap CustomerType.Student) [uhdDesktop] uhdDesktop none []
    (analyzeConversationState "אני רוצה מחשב"
      [{ role := "user", content := "אני רוצה מחשב" }])

/-! ### C1: the end-to-end example raises instead of recommending -/

/-- C1.  On the message "אני סטודנט, מחשב נייד, תקציב 3000" over an empty
history, the pipeline derives stage READY_TO_RECOMMEND, archetype Student,
product_type laptop and budget 3000 exactly as the claim says — but
`process_message` then invokes `find_matching_products` with the keyword
argument `brand`, which the callee's signature does not accept, so the
turn raises `TypeError` (wrapped into `RecommendationError`) instead of
returning the catalog-filter result. -/
theorem c1_end_to_end_type_error :
    (analyzeConversationState "אני סטודנט, מחשב נייד, תקציב 3000"
        [{ role := "user", content := "אני סטודנט, מחשב נייד, תקציב 3000" }]).stage
      = ConversationStage.ready_to_recommend
    ∧ ((analyzeConversationState "אני סטודנט, מחשב נייד, תקציב 3000"
        [{ role := "user", content := "אני סטודנט, מחשב נייד, תקציב 3000" }]).extracted_info).map
        ExtractedInfo.product_type = some (some "laptop")
    ∧ ((analyzeConversationState "אני סטודנט, מחשב נייד, תקציב 3000"
        [{ role := "user", content := "אני סטודנט, מחשב נייד, תקציב 3000" }]).extracted_info).map
        ExtractedInfo.budget_amount = some (some (3000 : ℚ))
    ∧ (analyzeConversationState "אני סטודנט, מחשב נייד, תקציב 3000"
        [{ role := "user", content := "אני סטודנט, מחשב נייד, תקציב 3000" }]).needs_clarification
      = false
    ∧ (identifyFromConversation "אני סטודנט, מחשב נייד, תקציב 3000"
        ["אני סטודנט, מחשב נייד, תקציב 3000"]).1 = CustomerType.Student
    ∧ findCallKeywordsAccepted = false
    ∧ ∀ (catalog : List Product) (llm : List Msg → Except String String),
        processMessage catalog llm [] none "s1" "אני סטודנט, מחשב נייד, תקציב 3000"
          = Except.error ("RecommendationError: Failed to process message: "
              ++ "TypeError: find_matching_products() got an unexpected keyword argument brand") := by
  refine ⟨by decide, by decide, by decide, by decide, by decide, by decide, ?_⟩
  intro catalog llm
  rfl

end SmartByte
